import Mathlib

/-!
# Canvas plugin (`src/canvas_plugin.c`): data model, operations and properties

The development embeds the C translation unit `canvas_plugin.c`:

* the frontend drawing API (`kryon_canvas_draw_circle`, `kryon_canvas_draw_ellipse`,
  `kryon_canvas_draw_arc`);
* the SDL3 execution routines (`handle_canvas_circle`, `handle_canvas_ellipse`,
  `handle_canvas_arc`) and the component renderer `canvas_component_renderer_sdl3`;
* plugin registration (`kryon_canvas_plugin_init`, `kryon_canvas_plugin_shutdown`).

Functions of the host framework that the file only calls (command buffer, iterator,
plugin registry, SDL) are not part of the translation unit; they appear either as
parameters or as definitions whose doc comment says they follow the specification.
Single precision arithmetic is kept abstract in the signature `FloatOps`.
-/

namespace KryonCanvas

/-! ## Numeric carrier -/

/-- Signature of the single precision operations used by the execution routines.
`F` stands for both `kryon_fp_t` and C `float`; conversions between the two are the
identity. Nothing is assumed about rounding. -/
structure FloatOps (F : Type) where
  ofInt : Int → F
  add : F → F → F
  sub : F → F → F
  mul : F → F → F
  div : F → F → F
  cosf : F → F
  sinf : F → F
  M_PI : F
  toU16 : F → Nat

/-! ## Commands -/

/-- Values of `cmd.type` that the translation unit mentions. -/
inductive CommandType where
  | CANVAS_CMD_CIRCLE
  | CANVAS_CMD_ELLIPSE
  | CANVAS_CMD_ARC
  | KRYON_CMD_DRAW_POLYGON
  | KRYON_CMD_DRAW_RECT
  | KRYON_CMD_DRAW_LINE
  | KRYON_CMD_DRAW_TEXT
  | KRYON_CMD_DRAW_ARC
  | OTHER (code : Nat)
  deriving DecidableEq, Repr

/-- The tagged union `kryon_command_t`, one constructor per member of `cmd.data` that
the translation unit reads or writes. `vertices` is the pointer of a polygon command,
read as `vertices[k]`. Packed colours are `uint32_t` values held in `Nat`. -/
inductive kryon_command_t (F : Type) where
  | canvas_circle (cx cy radius : F) (color : Nat) (filled : Bool)
  | canvas_ellipse (cx cy rx ry : F) (color : Nat) (filled : Bool)
  | canvas_arc (cx cy radius start_angle end_angle : F) (color : Nat)
  | draw_polygon (vertices : Nat → F) (vertex_count : Nat) (color : Nat) (filled : Bool)
  | draw_rect (x y w h : F) (color : Nat)
  | draw_line (x1 y1 x2 y2 : F) (color : Nat)
  | draw_text (x y : F) (color : Nat) (text_storage : String)
  | draw_arc (cx cy : Int) (radius : Nat) (start_angle end_angle : Int) (color : Nat)
  | other (code : Nat)

/-- The `type` field of a command. -/
def kryon_command_t.type {F : Type} : kryon_command_t F → CommandType
  | .canvas_circle .. => .CANVAS_CMD_CIRCLE
  | .canvas_ellipse .. => .CANVAS_CMD_ELLIPSE
  | .canvas_arc .. => .CANVAS_CMD_ARC
  | .draw_polygon .. => .KRYON_CMD_DRAW_POLYGON
  | .draw_rect .. => .KRYON_CMD_DRAW_RECT
  | .draw_line .. => .KRYON_CMD_DRAW_LINE
  | .draw_text .. => .KRYON_CMD_DRAW_TEXT
  | .draw_arc .. => .KRYON_CMD_DRAW_ARC
  | .other code => .OTHER code

/-! ## Command buffer and iterator (host framework) -/

/-- Modelled from the spec: the command buffer type of the host framework (spec 3,
"an ordered sequence of Commands with a capacity and current length"). Its
declaration is in the host header `kryon_canvas.h`. -/
structure kryon_cmd_buf_t (F : Type) where
  commands : List (kryon_command_t F)
  capacity : Nat

/-- Modelled from the spec: `init(buffer)` of spec 4.1, "resets internal storage to
zero length". -/
def kryon_cmd_buf_init {F : Type} (_buf : kryon_cmd_buf_t F) : kryon_cmd_buf_t F :=
  { commands := [], capacity := 0 }

/-- Modelled from the spec: `clear(buffer)` of spec 4.1, "sets length to zero;
retains allocated capacity". -/
def kryon_cmd_buf_clear {F : Type} (buf : kryon_cmd_buf_t F) : kryon_cmd_buf_t F :=
  { buf with commands := [] }

/-- Modelled from the spec: `push(buffer, command)` of spec 4.1, "appends a command
if capacity allows, else grows storage (doubling) and appends; returns failure only
on allocation failure". `alloc_ok` is the outcome of the allocator when growth is
needed. -/
def kryon_cmd_buf_push {F : Type} (alloc_ok : Bool) (buf : kryon_cmd_buf_t F)
    (cmd : kryon_command_t F) : Bool × kryon_cmd_buf_t F :=
  if buf.commands.length < buf.capacity then
    (true, { buf with commands := buf.commands ++ [cmd] })
  else if alloc_ok then
    (true, { commands := buf.commands ++ [cmd], capacity := 2 * buf.capacity + 1 })
  else
    (false, buf)

/-- Modelled from the spec: the iterator of spec 4.2, "a read-only cursor (index +
buffer reference)". -/
structure kryon_cmd_iterator_t (F : Type) where
  buf : kryon_cmd_buf_t F
  position : Nat

/-- Modelled from the spec: `create(buffer)` of spec 4.2, "initialized at position 0". -/
def kryon_cmd_iter_create {F : Type} (buf : kryon_cmd_buf_t F) : kryon_cmd_iterator_t F :=
  { buf := buf, position := 0 }

/-- Modelled from the spec: `has_next` of spec 4.2, "true iff position < buffer
length". -/
def kryon_cmd_iter_has_next {F : Type} (iter : kryon_cmd_iterator_t F) : Bool :=
  decide (iter.position < iter.buf.commands.length)

/-- Modelled from the spec: `next` of spec 4.2, "copies the command at the current
position into out_command, advances position, returns false (and leaves out_command
unmodified) if no more commands". The result is the advanced iterator and the
command copied out, `none` standing for the return value `false`. -/
def kryon_cmd_iter_next {F : Type} (iter : kryon_cmd_iterator_t F) :
    Option (kryon_cmd_iterator_t F × kryon_command_t F) :=
  match iter.buf.commands.get? iter.position with
  | some cmd => some ({ iter with position := iter.position + 1 }, cmd)
  | none => none

/-- Iteration of a buffer with a fresh iterator: the loop
`while (has_next(&it)) { if (!next(&it, &cmd)) break; ... }` collecting the commands
it yields, `fuel` bounding the number of rounds. -/
def drain_from {F : Type} : Nat → kryon_cmd_iterator_t F → List (kryon_command_t F)
  | 0, _ => []
  | fuel + 1, iter =>
    if kryon_cmd_iter_has_next iter then
      match kryon_cmd_iter_next iter with
      | none => []
      | some (iter1, cmd) => cmd :: drain_from fuel iter1
    else []

/-- Draining a buffer: iterate it from a fresh iterator; the buffer length is enough
fuel for the loop to reach the end. -/
def drain {F : Type} (buf : kryon_cmd_buf_t F) : List (kryon_command_t F) :=
  drain_from buf.commands.length (kryon_cmd_iter_create buf)

/-! ## Frontend drawing API -/

/-- The state the frontend API acts on: command buffers by address, the binding
returned by `kryon_canvas_get_command_buffer`, the canvas geometry set by
`kryon_canvas_init` and `kryon_canvas_set_offset`, the allocator outcome for buffer
growth, the lines written to `stderr` and the number of calls of
`kryon_cmd_buf_push` made so far. -/
structure CanvasState (F : Type) where
  mem : Nat → kryon_cmd_buf_t F
  current : Option Nat
  size : Nat × Nat
  offset : F × F
  alloc_ok : Bool
  stderr : List String
  push_calls : Nat

/-- Modelled from the spec: `get_current` of spec 4.1, "returns the buffer currently
bound ... or none if unbound". -/
def kryon_canvas_get_command_buffer {F : Type} (s : CanvasState F) : Option Nat :=
  s.current

/-- Modelled from the spec: `set_current` of spec 4.1, "binds a buffer as the implicit
destination for subsequent frontend-API push calls; replaces any prior binding". -/
def kryon_canvas_set_command_buffer {F : Type} (s : CanvasState F) (buf : Nat) :
    CanvasState F :=
  { s with current := some buf }

/-- The statement `fprintf(stderr, msg)`. -/
def fprintf_stderr {F : Type} (s : CanvasState F) (msg : String) : CanvasState F :=
  { s with stderr := s.stderr ++ [msg] }

/-- The call `kryon_cmd_buf_push(buf, &cmd)` on the buffer at address `buf`: the
buffer in memory is replaced by the pushed one and the call is counted. -/
def push_at {F : Type} (s : CanvasState F) (buf : Nat) (cmd : kryon_command_t F) :
    Bool × CanvasState F :=
  let r := kryon_cmd_buf_push s.alloc_ok (s.mem buf) cmd
  (r.1, { s with mem := fun a => if a = buf then r.2 else s.mem a,
                 push_calls := s.push_calls + 1 })

/-- The body shared by the three frontend functions after the command record is
built: lines 37-41 and 53-55 of `kryon_canvas_draw_circle`, with `what` the word in
the failure message. -/
def record_command {F : Type} (s : CanvasState F) (cmd : kryon_command_t F)
    (what : String) : CanvasState F :=
  match kryon_canvas_get_command_buffer s with
  | none => fprintf_stderr s "[canvas_plugin] No canvas command buffer available\n"
  | some buf =>
    let r := push_at s buf cmd
    if r.1 then r.2
    else fprintf_stderr r.2 ("[canvas_plugin] Failed to push " ++ what ++ " command\n")

/-- `kryon_canvas_draw_circle` (lines 34-56). -/
def kryon_canvas_draw_circle {F : Type} (s : CanvasState F) (cx cy radius : F)
    (color : Nat) (filled : Bool) : CanvasState F :=
  record_command s (.canvas_circle cx cy radius color filled) "circle"

/-- `kryon_canvas_draw_ellipse` (lines 58-79). -/
def kryon_canvas_draw_ellipse {F : Type} (s : CanvasState F) (cx cy rx ry : F)
    (color : Nat) (filled : Bool) : CanvasState F :=
  record_command s (.canvas_ellipse cx cy rx ry color filled) "ellipse"

/-- `kryon_canvas_draw_arc` (lines 81-102). -/
def kryon_canvas_draw_arc {F : Type} (s : CanvasState F) (cx cy radius start_angle
    end_angle : F) (color : Nat) : CanvasState F :=
  record_command s (.canvas_arc cx cy radius start_angle end_angle color) "arc"

/-! ## Colour unpacking -/

/-- `(color >> 24) & 0xFF`, the red channel as every execution routine extracts it. -/
def color_r (color : Nat) : Nat := (color >>> 24) &&& 0xFF

/-- `(color >> 16) & 0xFF`. -/
def color_g (color : Nat) : Nat := (color >>> 16) &&& 0xFF

/-- `(color >> 8) & 0xFF`. -/
def color_b (color : Nat) : Nat := (color >>> 8) &&& 0xFF

/-- `color & 0xFF`. -/
def color_a (color : Nat) : Nat := color &&& 0xFF

/-- Reassembly of a packed colour from four channels,
`(r << 24) | (g << 16) | (b << 8) | a`. -/
def pack_color (r g b a : Nat) : Nat := (r <<< 24) ||| (g <<< 16) ||| (b <<< 8) ||| a

/-! ## Rendering backend (SDL3) -/

/-- Four 8-bit channels, as `SDL_Color` and as the draw-colour state of a renderer. -/
structure SDL_Color where
  r : Nat
  g : Nat
  b : Nat
  a : Nat
  deriving DecidableEq, Repr

/-- The channels decoded from a packed colour. -/
def decode_color (color : Nat) : SDL_Color :=
  { r := color_r color, g := color_g color, b := color_b color, a := color_a color }

/-- `SDL_FPoint`. -/
structure SDL_FPoint (F : Type) where
  x : F
  y : F

/-- `SDL_FRect`. -/
structure SDL_FRect (F : Type) where
  x : F
  y : F
  w : F
  h : F

/-- `SDL_FColor`, the per-vertex colour of `SDL_Vertex`. -/
structure SDL_FColor (F : Type) where
  r : F
  g : F
  b : F
  a : F

/-- `SDL_Vertex`. -/
structure SDL_Vertex (F : Type) where
  position : SDL_FPoint F
  color : SDL_FColor F
  tex_coord : SDL_FPoint F

/-- A glyph surface returned by the text rasteriser: a handle and its pixel size. -/
structure SDL_Surface where
  handle : Nat
  w : Int
  h : Int
  deriving DecidableEq, Repr

/-- The backend calls the translation unit makes on a renderer or on the resources
it creates. -/
inductive SDLCall (F : Type) where
  | SetRenderDrawColor (r g b a : Nat)
  | RenderLines (points : List (SDL_FPoint F)) (count : Nat)
  | RenderFillRect (rect : SDL_FRect F)
  | RenderLine (x1 y1 x2 y2 : F)
  | RenderGeometry (texture : Option Nat) (vertices : List (SDL_Vertex F))
      (num_vertices : Nat) (indices : List Int) (num_indices : Nat)
  | TTF_RenderText_Blended (font : Nat) (text : String) (length : Nat) (fg : SDL_Color)
  | CreateTextureFromSurface (surface : SDL_Surface)
  | SetTextureScaleMode (texture : Nat)
  | RenderTexture (texture : Nat) (dest : SDL_FRect F)
  | DestroyTexture (texture : Nat)
  | DestroySurface (surface : SDL_Surface)

/-- Whether a backend call puts pixels on the render target. -/
def SDLCall.is_drawing {F : Type} : SDLCall F → Bool
  | .RenderLines .. => true
  | .RenderFillRect .. => true
  | .RenderLine .. => true
  | .RenderGeometry .. => true
  | .RenderTexture .. => true
  | _ => false

/-- One line of the backend log: the call and the draw-colour state of the renderer
once the call has returned. -/
structure LogEntry (F : Type) where
  call : SDLCall F
  draw_color : SDL_Color

/-- The renderer as the translation unit observes it: its draw-colour state and the
log of the calls made on it, oldest first. `killed` records that the process has been
killed by a write through a null pointer; a killed process makes no further call. -/
structure SDL_Renderer (F : Type) where
  draw_color : SDL_Color
  log : List (LogEntry F)
  killed : Bool

/-- A backend call that leaves the draw colour alone: it is appended to the log. -/
def SDL_Renderer.issue {F : Type} (renderer : SDL_Renderer F) (call : SDLCall F) :
    SDL_Renderer F :=
  { renderer with log := renderer.log ++ [{ call := call, draw_color := renderer.draw_color }] }

/-- `SDL_SetRenderDrawColor`: the draw-colour state becomes `(r, g, b, a)`. -/
def SDL_SetRenderDrawColor {F : Type} (renderer : SDL_Renderer F) (r g b a : Nat) :
    SDL_Renderer F :=
  { renderer with
    draw_color := { r := r, g := g, b := b, a := a },
    log := renderer.log ++
      [{ call := .SetRenderDrawColor r g b a, draw_color := { r := r, g := g, b := b, a := a } }] }

/-- `SDL_RenderLines`. -/
def SDL_RenderLines {F : Type} (renderer : SDL_Renderer F) (points : List (SDL_FPoint F))
    (count : Nat) : SDL_Renderer F :=
  renderer.issue (.RenderLines points count)

/-- `SDL_RenderFillRect`. -/
def SDL_RenderFillRect {F : Type} (renderer : SDL_Renderer F) (rect : SDL_FRect F) :
    SDL_Renderer F :=
  renderer.issue (.RenderFillRect rect)

/-- `SDL_RenderLine`. -/
def SDL_RenderLine {F : Type} (renderer : SDL_Renderer F) (x1 y1 x2 y2 : F) :
    SDL_Renderer F :=
  renderer.issue (.RenderLine x1 y1 x2 y2)

/-- `SDL_RenderGeometry`. -/
def SDL_RenderGeometry {F : Type} (renderer : SDL_Renderer F) (texture : Option Nat)
    (vertices : List (SDL_Vertex F)) (num_vertices : Nat) (indices : List Int)
    (num_indices : Nat) : SDL_Renderer F :=
  renderer.issue (.RenderGeometry texture vertices num_vertices indices num_indices)

/-- What the environment decides during a draw pass: whether a scratch `malloc` of a
given number of bytes succeeds, what the text rasteriser and the texture upload
return, and the unspecified contents of freshly allocated arrays. -/
structure Environment (F : Type) where
  malloc : Nat → Bool
  TTF_RenderText_Blended : Nat → String → Nat → SDL_Color → Option SDL_Surface
  SDL_CreateTextureFromSurface : SDL_Surface → Option Nat
  fresh_int : Nat → Int
  fresh_vertex : Nat → SDL_Vertex F

/-- `sizeof(SDL_FPoint)`: two floats. -/
def sizeof_SDL_FPoint : Nat := 8

/-- `sizeof(SDL_Vertex)`: a position, a four-channel colour and a texture coordinate,
eight floats. -/
def sizeof_SDL_Vertex : Nat := 32

/-- `sizeof(int)`. -/
def sizeof_int : Nat := 4

/-! ## Execution routines registered as command handlers -/

/-- The angle `(2.0f * M_PI * i) / segments`. -/
def turn_angle {F : Type} (ops : FloatOps F) (i segments : Nat) : F :=
  ops.div (ops.mul (ops.mul (ops.ofInt 2) ops.M_PI) (ops.ofInt i)) (ops.ofInt segments)

/-- The point `(cx + rx * cosf(angle), cy + ry * sinf(angle))`. -/
def ellipse_point {F : Type} (ops : FloatOps F) (cx cy rx ry angle : F) : SDL_FPoint F :=
  { x := ops.add cx (ops.mul rx (ops.cosf angle)),
    y := ops.add cy (ops.mul ry (ops.sinf angle)) }

/-- The filled branch shared by circle and ellipse: for `i` from `0` below `segments`
one `SDL_RenderLines` call on the three points `center, p1, p2`. -/
def render_fan {F : Type} (ops : FloatOps F) (renderer : SDL_Renderer F)
    (cx cy rx ry : F) (segments : Nat) : SDL_Renderer F :=
  (List.range segments).foldl
    (fun rs i =>
      SDL_RenderLines rs
        [{ x := cx, y := cy },
         ellipse_point ops cx cy rx ry (turn_angle ops i segments),
         ellipse_point ops cx cy rx ry (turn_angle ops (i + 1) segments)] 3)
    renderer

/-- The outline branch shared by circle and ellipse: `segments + 1` points, `i` from
`0` to `segments` inclusive, drawn by one `SDL_RenderLines` call; nothing is drawn
when the point array cannot be allocated. -/
def render_outline {F : Type} (ops : FloatOps F) (env : Environment F)
    (renderer : SDL_Renderer F) (cx cy rx ry : F) (segments : Nat) : SDL_Renderer F :=
  if env.malloc ((segments + 1) * sizeof_SDL_FPoint) then
    SDL_RenderLines renderer
      ((List.range (segments + 1)).map
        (fun i => ellipse_point ops cx cy rx ry (turn_angle ops i segments)))
      (segments + 1)
  else renderer

/-- `handle_canvas_circle` (lines 110-164) on the fields of a circle command. -/
def handle_canvas_circle {F : Type} (ops : FloatOps F) (env : Environment F)
    (renderer : SDL_Renderer F) (cx cy radius : F) (color : Nat) (filled : Bool) :
    SDL_Renderer F :=
  let rs := SDL_SetRenderDrawColor renderer (color_r color) (color_g color) (color_b color)
    (color_a color)
  if filled then render_fan ops rs cx cy radius radius 64
  else render_outline ops env rs cx cy radius radius 64

/-- `handle_canvas_ellipse` (lines 166-220) on the fields of an ellipse command. -/
def handle_canvas_ellipse {F : Type} (ops : FloatOps F) (env : Environment F)
    (renderer : SDL_Renderer F) (cx cy rx ry : F) (color : Nat) (filled : Bool) :
    SDL_Renderer F :=
  let rs := SDL_SetRenderDrawColor renderer (color_r color) (color_g color) (color_b color)
    (color_a color)
  if filled then render_fan ops rs cx cy rx ry 64
  else render_outline ops env rs cx cy rx ry 64

/-- The arc sample `i` of `segments`: `t = i / segments`,
`angle_deg = start_angle + angle_span * t`, `angle_rad = angle_deg * M_PI / 180`,
point `(cx + radius * cosf(angle_rad), cy + radius * sinf(angle_rad))`. -/
def arc_point {F : Type} (ops : FloatOps F) (cx cy radius start_angle angle_span : F)
    (segments i : Nat) : SDL_FPoint F :=
  let t := ops.div (ops.ofInt i) (ops.ofInt segments)
  let angle_deg := ops.add start_angle (ops.mul angle_span t)
  let angle_rad := ops.div (ops.mul angle_deg ops.M_PI) (ops.ofInt 180)
  ellipse_point ops cx cy radius radius angle_rad

/-- `handle_canvas_arc` (lines 222-258) on the fields of an arc command. -/
def handle_canvas_arc {F : Type} (ops : FloatOps F) (env : Environment F)
    (renderer : SDL_Renderer F) (cx cy radius start_angle end_angle : F) (color : Nat) :
    SDL_Renderer F :=
  let rs := SDL_SetRenderDrawColor renderer (color_r color) (color_g color) (color_b color)
    (color_a color)
  if env.malloc ((32 + 1) * sizeof_SDL_FPoint) then
    SDL_RenderLines rs
      ((List.range (32 + 1)).map
        (fun i => arc_point ops cx cy radius start_angle (ops.sub end_angle start_angle) 32 i))
      (32 + 1)
  else rs

/-! ## Component renderer -/

/-- `IRPluginBackendContext`: the renderer, the optional font and the user data (the
reusable white texture) handed in by the host for one draw call. -/
structure IRPluginBackendContext (F : Type) where
  renderer : SDL_Renderer F
  font : Option Nat
  user_data : Option Nat

/-- Lines 323-333: the loop `for (uint16_t i = 0; i < vertex_count; i++)` filling the
vertex array; `i` is a 16-bit counter, `fuel` bounds the number of rounds. -/
def fill_vertices {F : Type} (ops : FloatOps F) (vertices : Nat → F) (vertex_count : Nat)
    (r g b a : Nat) : Nat → Nat → List (SDL_Vertex F) → List (SDL_Vertex F)
  | 0, _, sdl_vertices => sdl_vertices
  | fuel + 1, i, sdl_vertices =>
    if i < vertex_count then
      fill_vertices ops vertices vertex_count r g b a fuel ((i + 1) % 65536)
        (sdl_vertices.set i
          { position := { x := vertices (i * 2), y := vertices (i * 2 + 1) },
            color := { r := ops.div (ops.ofInt r) (ops.ofInt 255),
                       g := ops.div (ops.ofInt g) (ops.ofInt 255),
                       b := ops.div (ops.ofInt b) (ops.ofInt 255),
                       a := ops.div (ops.ofInt a) (ops.ofInt 255) },
            tex_coord := { x := ops.ofInt 0, y := ops.ofInt 0 } })
    else sdl_vertices

/-- Lines 336-341: the loop `for (uint16_t i = 0; i < vertex_count - 2; i++)` writing
the triangle fan indices; the comparison and the stored values are `int`. -/
def fill_indices (vertex_count : Nat) : Nat → Nat → List Int → List Int
  | 0, _, indices => indices
  | fuel + 1, i, indices =>
    if (i : Int) < (vertex_count : Int) - 2 then
      fill_indices vertex_count fuel ((i + 1) % 65536)
        (((indices.set (i * 3) 0).set (i * 3 + 1) ((i : Int) + 1)).set (i * 3 + 2)
          ((i : Int) + 2))
    else indices

/-- The array `malloc(n * sizeof(T))` returns: `n` cells of unspecified content. -/
def fresh_array {α : Type} (content : Nat → α) (n : Nat) : List α :=
  (List.range n).map content

/-- The vertex array submitted for a filled polygon (lines 323-333). -/
def polygon_vertices {F : Type} (ops : FloatOps F) (env : Environment F)
    (vertices : Nat → F) (vertex_count color : Nat) : List (SDL_Vertex F) :=
  fill_vertices ops vertices vertex_count (color_r color) (color_g color) (color_b color)
    (color_a color) vertex_count 0 (fresh_array env.fresh_vertex vertex_count)

/-- The index array submitted for a filled polygon (lines 336-341). -/
def polygon_indices {F : Type} (env : Environment F) (vertex_count : Nat) : List Int :=
  fill_indices vertex_count vertex_count 0
    (fresh_array env.fresh_int ((vertex_count - 2) * 3))

/-- The `KRYON_CMD_DRAW_TEXT` case (lines 375-408) with a font bound. -/
def exec_text {F : Type} (ops : FloatOps F) (env : Environment F) (font : Nat)
    (renderer : SDL_Renderer F) (x y : F) (color : Nat) (text_storage : String) :
    SDL_Renderer F :=
  let text_color : SDL_Color := decode_color color
  let text_len := text_storage.utf8ByteSize
  let rs := renderer.issue (.TTF_RenderText_Blended font text_storage text_len text_color)
  match env.TTF_RenderText_Blended font text_storage text_len text_color with
  | none => rs
  | some text_surface =>
    let rs := rs.issue (.CreateTextureFromSurface text_surface)
    match env.SDL_CreateTextureFromSurface text_surface with
    | none => rs.issue (.DestroySurface text_surface)
    | some text_texture =>
      let rs := rs.issue (.SetTextureScaleMode text_texture)
      let dest_rect : SDL_FRect F :=
        { x := x, y := y, w := ops.ofInt text_surface.w, h := ops.ofInt text_surface.h }
      let rs := rs.issue (.RenderTexture text_texture dest_rect)
      let rs := rs.issue (.DestroyTexture text_texture)
      rs.issue (.DestroySurface text_surface)

/-- The body of the drain loop, the `switch (cmd.type)` of lines 309-443: what one
command makes the backend do. A process that has been killed does nothing. The two
allocations of the polygon case (lines 323 and 336) are not checked by the code: the
loop that follows each of them writes through the result, so when `malloc` fails the
first write goes through a null pointer and the process is killed, before any backend
call of the command. -/
def exec_command {F : Type} (ops : FloatOps F) (env : Environment F)
    (font user_data : Option Nat) (renderer : SDL_Renderer F)
    (cmd : kryon_command_t F) : SDL_Renderer F :=
  if renderer.killed then renderer else
  match cmd with
  | .draw_polygon vertices vertex_count color filled =>
    if filled && decide (vertex_count ≥ 3) then
      if env.malloc (vertex_count * sizeof_SDL_Vertex) then
        let sdl_vertices := polygon_vertices ops env vertices vertex_count color
        if env.malloc ((vertex_count - 2) * 3 * sizeof_int) then
          let indices := polygon_indices env vertex_count
          let rs := SDL_SetRenderDrawColor renderer 255 255 255 255
          SDL_RenderGeometry rs user_data sdl_vertices vertex_count indices
            ((vertex_count - 2) * 3)
        else { renderer with killed := true }
      else { renderer with killed := true }
    else renderer
  | .draw_rect x y w h color =>
    let rs := SDL_SetRenderDrawColor renderer (color_r color) (color_g color)
      (color_b color) (color_a color)
    SDL_RenderFillRect rs { x := x, y := y, w := w, h := h }
  | .draw_line x1 y1 x2 y2 color =>
    let rs := SDL_SetRenderDrawColor renderer (color_r color) (color_g color)
      (color_b color) (color_a color)
    SDL_RenderLine rs x1 y1 x2 y2
  | .draw_text x y color text_storage =>
    match font with
    | none => renderer
    | some f => exec_text ops env f renderer x y color text_storage
  | .draw_arc cx cy radius start_angle end_angle color =>
    if env.malloc ((32 + 1) * sizeof_SDL_FPoint) then
      let points := (List.range (32 + 1)).map
        (fun i => arc_point ops (ops.ofInt cx) (ops.ofInt cy) (ops.ofInt radius)
          (ops.ofInt start_angle) (ops.ofInt (end_angle - start_angle)) 32 i)
      let rs := SDL_SetRenderDrawColor renderer (color_r color) (color_g color)
        (color_b color) (color_a color)
      SDL_RenderLines rs points (32 + 1)
    else renderer
  | _ => renderer

/-- The drain loop of lines 306-444 from an iterator, `fuel` bounding the number of
rounds. -/
def drain_loop {F : Type} (ops : FloatOps F) (env : Environment F)
    (font user_data : Option Nat) :
    Nat → kryon_cmd_iterator_t F → SDL_Renderer F → SDL_Renderer F
  | 0, _, renderer => renderer
  | fuel + 1, iter, renderer =>
    if kryon_cmd_iter_has_next iter then
      match kryon_cmd_iter_next iter with
      | none => renderer
      | some (iter1, cmd) =>
        drain_loop ops env font user_data fuel iter1
          (exec_command ops env font user_data renderer cmd)
    else renderer

/-- The drain pass over a buffer (lines 303-444): a fresh iterator and the loop; the
buffer length is enough fuel for the loop to reach the end. -/
def drain_pass {F : Type} (ops : FloatOps F) (env : Environment F)
    (ctx : IRPluginBackendContext F) (buf : kryon_cmd_buf_t F) : SDL_Renderer F :=
  drain_loop ops env ctx.font ctx.user_data buf.commands.length (kryon_cmd_iter_create buf)
    ctx.renderer

/-- `IRComponent`, the two fields the renderer reads. -/
structure IRComponent where
  type : Nat
  id : Nat

/-- The address of the function-static `canvas_buffer` (line 275). -/
def canvas_buffer : Nat := 0

/-- Everything one call of the component renderer reads and writes: the frontend
state, the function-static flag `buffer_initialized` and the backend context. -/
structure RenderState (F : Type) where
  canvas : CanvasState F
  buffer_initialized : Bool
  ctx : IRPluginBackendContext F

/-- Modelled from the spec: the configure step of spec 4.4, "set canvas
dimensions/offset", done by the host functions `kryon_canvas_init` and
`kryon_canvas_set_offset`. -/
def kryon_canvas_configure {F : Type} (s : CanvasState F) (width height : Nat) (x y : F) :
    CanvasState F :=
  { s with size := (width, height), offset := (x, y) }

/-- `canvas_component_renderer_sdl3` (lines 264-445). `dispatch` is the host function
`ir_plugin_dispatch_callback`, which runs the user drawing code on the frontend
state. -/
def canvas_component_renderer_sdl3 {F : Type} (ops : FloatOps F) (env : Environment F)
    (dispatch : Nat → Nat → CanvasState F → CanvasState F) (st : RenderState F)
    (component : IRComponent) (x y width height : F) : RenderState F :=
  let c0 : CanvasState F :=
    if st.buffer_initialized then
      { st.canvas with
        mem := fun a =>
          if a = canvas_buffer then kryon_cmd_buf_clear (st.canvas.mem a) else st.canvas.mem a }
    else
      fprintf_stderr
        { st.canvas with
          mem := fun a =>
            if a = canvas_buffer then kryon_cmd_buf_init (st.canvas.mem a)
            else st.canvas.mem a }
        "[canvas_plugin] Initialized canvas command buffer\n"
  let c1 := kryon_canvas_set_command_buffer c0 canvas_buffer
  let c2 := kryon_canvas_configure c1 (ops.toU16 width) (ops.toU16 height) x y
  let c3 := dispatch component.type component.id c2
  match kryon_canvas_get_command_buffer c3 with
  | none => { canvas := c3, buffer_initialized := true, ctx := st.ctx }
  | some canvas_buf =>
    { canvas := c3, buffer_initialized := true,
      ctx := { st.ctx with renderer := drain_pass ops env st.ctx (c3.mem canvas_buf) } }

/-! ## Plugin registration -/

/-- The functions whose addresses are handed to the plugin registry. -/
inductive PluginFunction where
  | handle_canvas_circle
  | handle_canvas_ellipse
  | handle_canvas_arc
  | canvas_component_renderer_sdl3
  | canvas_nim_callback_bridge
  | foreign (id : Nat)
  deriving DecidableEq, Repr

/-- `IRPluginMetadata`. -/
structure IRPluginMetadata where
  name : String
  version : String
  description : String
  kryon_version_min : String
  command_id_start : CommandType
  command_id_end : CommandType
  required_capabilities : List String
  capability_count : Nat
  deriving DecidableEq, Repr

/-- `IRBackendCapabilities`. -/
structure IRBackendCapabilities where
  has_2d_shapes : Bool
  has_transforms : Bool
  has_hardware_accel : Bool
  has_blend_modes : Bool
  has_antialiasing : Bool
  has_gradients : Bool
  has_text_rendering : Bool
  has_3d_rendering : Bool
  deriving DecidableEq, Repr

/-- The plugin registry of the host as the translation unit uses it: the four
registration functions return success, the others return nothing. `σ` is the state of
the registry. -/
structure PluginHost (σ : Type) where
  ir_plugin_register : IRPluginMetadata → σ → Bool × σ
  ir_plugin_register_handler : CommandType → PluginFunction → σ → Bool × σ
  ir_plugin_register_component_renderer : Nat → PluginFunction → σ → Bool × σ
  ir_plugin_register_callback_bridge : Nat → PluginFunction → σ → Bool × σ
  ir_plugin_set_backend_capabilities : IRBackendCapabilities → σ → σ
  ir_plugin_unregister_component_renderer : Nat → σ → σ
  ir_plugin_unregister_callback_bridge : Nat → σ → σ
  ir_plugin_unregister_handler : CommandType → σ → σ

/-- The state of the registry together with the lines written to `stderr`. -/
structure PluginState (σ : Type) where
  registry : σ
  stderr : List String

/-- The metadata record built at lines 456-466. -/
def canvas_metadata : IRPluginMetadata :=
  { name := "canvas",
    version := "1.0.0",
    description := "Love2D-style immediate mode canvas",
    kryon_version_min := "0.3.0",
    command_id_start := .CANVAS_CMD_CIRCLE,
    command_id_end := .CANVAS_CMD_ARC,
    required_capabilities := ["2d_shapes"],
    capability_count := 1 }

/-- The capabilities record built at lines 503-512. -/
def canvas_capabilities : IRBackendCapabilities :=
  { has_2d_shapes := true,
    has_transforms := false,
    has_hardware_accel := true,
    has_blend_modes := true,
    has_antialiasing := true,
    has_gradients := false,
    has_text_rendering := true,
    has_3d_rendering := false }

/-- A failed step of init: the message goes to `stderr` and init returns `false`. -/
def init_fail {σ : Type} (registry : σ) (stderr : List String) (msg : String) :
    Bool × PluginState σ :=
  (false, { registry := registry, stderr := stderr ++ [msg] })

/-- `kryon_canvas_plugin_init` (lines 453-521); `enable_sdl3` says whether the file is
compiled with `ENABLE_SDL3`. -/
def kryon_canvas_plugin_init {σ : Type} (enable_sdl3 : Bool) (host : PluginHost σ)
    (s : PluginState σ) : Bool × PluginState σ :=
  if enable_sdl3 then
    let r1 := host.ir_plugin_register canvas_metadata s.registry
    if !r1.1 then
      init_fail r1.2 s.stderr "[canvas_plugin] Failed to register plugin metadata\n"
    else
    let r2 := host.ir_plugin_register_handler .CANVAS_CMD_CIRCLE .handle_canvas_circle r1.2
    if !r2.1 then
      init_fail r2.2 s.stderr "[canvas_plugin] Failed to register circle handler\n"
    else
    let r3 := host.ir_plugin_register_handler .CANVAS_CMD_ELLIPSE .handle_canvas_ellipse r2.2
    if !r3.1 then
      init_fail r3.2 s.stderr "[canvas_plugin] Failed to register ellipse handler\n"
    else
    let r4 := host.ir_plugin_register_handler .CANVAS_CMD_ARC .handle_canvas_arc r3.2
    if !r4.1 then
      init_fail r4.2 s.stderr "[canvas_plugin] Failed to register arc handler\n"
    else
    let r5 := host.ir_plugin_register_component_renderer 10 .canvas_component_renderer_sdl3
      r4.2
    if !r5.1 then
      init_fail r5.2 s.stderr "[canvas_plugin] Failed to register component renderer\n"
    else
    let r6 := host.ir_plugin_register_callback_bridge 10 .canvas_nim_callback_bridge r5.2
    if !r6.1 then
      init_fail r6.2 s.stderr "[canvas_plugin] Failed to register callback bridge\n"
    else
    (true,
      { registry := host.ir_plugin_set_backend_capabilities canvas_capabilities r6.2,
        stderr := s.stderr ++ ["[canvas_plugin] Canvas plugin initialized\n"] })
  else
    (false,
      { registry := s.registry,
        stderr := s.stderr ++ ["[canvas_plugin] Canvas plugin requires SDL3 backend\n"] })

/-- `kryon_canvas_plugin_shutdown` (lines 523-531). -/
def kryon_canvas_plugin_shutdown {σ : Type} (host : PluginHost σ) (s : PluginState σ) :
    PluginState σ :=
  let r1 := host.ir_plugin_unregister_component_renderer 10 s.registry
  let r2 := host.ir_plugin_unregister_callback_bridge 10 r1
  let r3 := host.ir_plugin_unregister_handler .CANVAS_CMD_CIRCLE r2
  let r4 := host.ir_plugin_unregister_handler .CANVAS_CMD_ELLIPSE r3
  let r5 := host.ir_plugin_unregister_handler .CANVAS_CMD_ARC r4
  { registry := r5, stderr := s.stderr ++ ["[canvas_plugin] Canvas plugin shutdown\n"] }

/-- A call on the plugin registry. -/
inductive HostCall where
  | register (metadata : IRPluginMetadata)
  | register_handler (command_id : CommandType) (handler : PluginFunction)
  | register_component_renderer (slot : Nat) (renderer : PluginFunction)
  | register_callback_bridge (slot : Nat) (bridge : PluginFunction)
  | set_backend_capabilities (caps : IRBackendCapabilities)
  | unregister_component_renderer (slot : Nat)
  | unregister_callback_bridge (slot : Nat)
  | unregister_handler (command_id : CommandType)
  deriving DecidableEq, Repr

/-- A registry that also keeps the journal of the calls made on it, oldest first, each
with the value it returned (`true` for the calls that return nothing). -/
def PluginHost.journaled {σ : Type} (host : PluginHost σ) :
    PluginHost (σ × List (HostCall × Bool)) :=
  { ir_plugin_register := fun m s =>
      let r := host.ir_plugin_register m s.1
      (r.1, (r.2, s.2 ++ [(.register m, r.1)])),
    ir_plugin_register_handler := fun c h s =>
      let r := host.ir_plugin_register_handler c h s.1
      (r.1, (r.2, s.2 ++ [(.register_handler c h, r.1)])),
    ir_plugin_register_component_renderer := fun k f s =>
      let r := host.ir_plugin_register_component_renderer k f s.1
      (r.1, (r.2, s.2 ++ [(.register_component_renderer k f, r.1)])),
    ir_plugin_register_callback_bridge := fun k f s =>
      let r := host.ir_plugin_register_callback_bridge k f s.1
      (r.1, (r.2, s.2 ++ [(.register_callback_bridge k f, r.1)])),
    ir_plugin_set_backend_capabilities := fun caps s =>
      (host.ir_plugin_set_backend_capabilities caps s.1,
        s.2 ++ [(.set_backend_capabilities caps, true)]),
    ir_plugin_unregister_component_renderer := fun k s =>
      (host.ir_plugin_unregister_component_renderer k s.1,
        s.2 ++ [(.unregister_component_renderer k, true)]),
    ir_plugin_unregister_callback_bridge := fun k s =>
      (host.ir_plugin_unregister_callback_bridge k s.1,
        s.2 ++ [(.unregister_callback_bridge k, true)]),
    ir_plugin_unregister_handler := fun c s =>
      (host.ir_plugin_unregister_handler c s.1, s.2 ++ [(.unregister_handler c, true)]) }

/-- The six registration steps of init, in program order. -/
def init_steps : List HostCall :=
  [.register canvas_metadata,
   .register_handler .CANVAS_CMD_CIRCLE .handle_canvas_circle,
   .register_handler .CANVAS_CMD_ELLIPSE .handle_canvas_ellipse,
   .register_handler .CANVAS_CMD_ARC .handle_canvas_arc,
   .register_component_renderer 10 .canvas_component_renderer_sdl3,
   .register_callback_bridge 10 .canvas_nim_callback_bridge]

/-- Modelled from the spec: the registry of spec 6 and 9, "a mapping from command kind
to handler function", component renderers and callback bridges "keyed by a numeric
slot", the registered plugin descriptors and the capability descriptor. -/
structure Registry where
  plugins : List IRPluginMetadata
  handlers : List (CommandType × PluginFunction)
  component_renderers : List (Nat × PluginFunction)
  callback_bridges : List (Nat × PluginFunction)
  capabilities : Option IRBackendCapabilities
  deriving DecidableEq, Repr

/-- Registration under a key that is checked first: it fails when the key is taken. -/
def register_key {κ : Type} [DecidableEq κ] (k : κ) (f : PluginFunction)
    (table : List (κ × PluginFunction)) : Bool × List (κ × PluginFunction) :=
  if table.any (fun e => decide (e.1 = k)) then (false, table) else (true, table ++ [(k, f)])

/-- Unregistration by key: every entry under the key is removed. -/
def unregister_key {κ : Type} [DecidableEq κ] (k : κ) (table : List (κ × PluginFunction)) :
    List (κ × PluginFunction) :=
  table.filter (fun e => !decide (e.1 = k))

/-- Modelled from the spec: the registry functions of the host, spec 6: "Registration
is idempotent-checked (each step can fail independently)", unregistration works "by
the same keys". A plugin descriptor is keyed by its name. -/
def Registry.host : PluginHost Registry :=
  { ir_plugin_register := fun m r =>
      if r.plugins.any (fun p => decide (p.name = m.name)) then (false, r)
      else (true, { r with plugins := r.plugins ++ [m] }),
    ir_plugin_register_handler := fun c h r =>
      ((register_key c h r.handlers).1, { r with handlers := (register_key c h r.handlers).2 }),
    ir_plugin_register_component_renderer := fun k f r =>
      ((register_key k f r.component_renderers).1,
        { r with component_renderers := (register_key k f r.component_renderers).2 }),
    ir_plugin_register_callback_bridge := fun k f r =>
      ((register_key k f r.callback_bridges).1,
        { r with callback_bridges := (register_key k f r.callback_bridges).2 }),
    ir_plugin_set_backend_capabilities := fun caps r => { r with capabilities := some caps },
    ir_plugin_unregister_component_renderer := fun k r =>
      { r with component_renderers := unregister_key k r.component_renderers },
    ir_plugin_unregister_callback_bridge := fun k r =>
      { r with callback_bridges := unregister_key k r.callback_bridges },
    ir_plugin_unregister_handler := fun c r =>
      { r with handlers := unregister_key c r.handlers } }

/-- The registry with nothing registered. -/
def Registry.empty : Registry :=
  { plugins := [], handlers := [], component_renderers := [], callback_bridges := [],
    capabilities := none }

/-! ## Observations used in the statements -/

/-- What a successful frontend call leaves behind, seen from the buffer at address
`p`: the command is appended after the commands already there, draining yields the
old commands followed by the new one, the new one comes last, its kind tag is `tag`,
no other buffer changed, and `kryon_cmd_buf_push` was called once. -/
def pushed_last {F : Type} (s s1 : CanvasState F) (p : Nat) (cmd : kryon_command_t F)
    (tag : CommandType) : Prop :=
  (s1.mem p).commands = (s.mem p).commands ++ [cmd] ∧
  (s1.mem p).commands.length = (s.mem p).commands.length + 1 ∧
  drain (s1.mem p) = drain (s.mem p) ++ [cmd] ∧
  (drain (s1.mem p)).getLast? = some cmd ∧
  cmd.type = tag ∧
  (∀ q, q ≠ p → s1.mem q = s.mem q) ∧
  s1.current = s.current ∧
  s1.push_calls = s.push_calls + 1

/-- What a frontend call leaves behind when nothing is bound: no call of
`kryon_cmd_buf_push`, every buffer and the binding as before, and one diagnostic
line on `stderr`. -/
def dropped {F : Type} (s s1 : CanvasState F) : Prop :=
  s1.push_calls = s.push_calls ∧
  s1.mem = s.mem ∧
  (∀ q, (s1.mem q).commands.length = (s.mem q).commands.length) ∧
  s1.current = s.current ∧
  s1.stderr = s.stderr ++ ["[canvas_plugin] No canvas command buffer available\n"]

/-- The log lines a step added to the renderer. -/
def new_entries {F : Type} (before after : SDL_Renderer F) : List (LogEntry F) :=
  after.log.drop before.log.length

/-- The first drawing call among log lines, if there is one. -/
def first_drawing {F : Type} (entries : List (LogEntry F)) : Option (LogEntry F) :=
  entries.find? (fun e => e.call.is_drawing)

/-- The draw-colour state at the first drawing call a step made, if it made one. -/
def first_draw_color {F : Type} (before after : SDL_Renderer F) : Option SDL_Color :=
  (first_drawing (new_entries before after)).map (fun e => e.draw_color)

/-- The effect of one registry call on the registry state. -/
def HostCall.apply {σ : Type} (host : PluginHost σ) : HostCall → σ → σ
  | .register m, s => (host.ir_plugin_register m s).2
  | .register_handler c h, s => (host.ir_plugin_register_handler c h s).2
  | .register_component_renderer k f, s => (host.ir_plugin_register_component_renderer k f s).2
  | .register_callback_bridge k f, s => (host.ir_plugin_register_callback_bridge k f s).2
  | .set_backend_capabilities caps, s => host.ir_plugin_set_backend_capabilities caps s
  | .unregister_component_renderer k, s => host.ir_plugin_unregister_component_renderer k s
  | .unregister_callback_bridge k, s => host.ir_plugin_unregister_callback_bridge k s
  | .unregister_handler c, s => host.ir_plugin_unregister_handler c s

/-- The registry state after a sequence of calls, made in order. -/
def replay {σ : Type} (host : PluginHost σ) (calls : List HostCall) (s : σ) : σ :=
  calls.foldl (fun t c => c.apply host t) s

/-- The journal of the registry calls init makes (SDL3 enabled). -/
def init_journal {σ : Type} (host : PluginHost σ) (s : PluginState σ) :
    List (HostCall × Bool) :=
  (kryon_canvas_plugin_init true host.journaled
    { registry := (s.registry, []), stderr := s.stderr }).2.registry.2

/-- The journal of the registry calls shutdown makes. -/
def shutdown_journal {σ : Type} (host : PluginHost σ) (s : PluginState σ) :
    List (HostCall × Bool) :=
  (kryon_canvas_plugin_shutdown host.journaled
    { registry := (s.registry, []), stderr := s.stderr }).registry.2

/-- The journal in which the first `k` steps of init succeed, step `k` fails and
nothing follows. -/
def failed_journal (k : Nat) : List (HostCall × Bool) :=
  (init_steps.take k).map (fun c => (c, true)) ++
    ((init_steps.drop k).take 1).map (fun c => (c, false))

/-- The journal in which the six steps succeed and the capabilities are then set. -/
def full_journal : List (HostCall × Bool) :=
  init_steps.map (fun c => (c, true)) ++ [(.set_backend_capabilities canvas_capabilities, true)]

/-! ## Sample inputs -/

/-- Integer arithmetic standing in for single precision on sample inputs. -/
def sample_ops : FloatOps Int :=
  { ofInt := fun n => n, add := fun a b => a + b, sub := fun a b => a - b,
    mul := fun a b => a * b, div := fun a b => a / b, cosf := fun _ => 1,
    sinf := fun _ => 0, M_PI := 3, toU16 := fun a => a.toNat % 65536 }

/-- An environment in which every allocation and every text call succeeds. -/
def sample_env : Environment Int :=
  { malloc := fun _ => true,
    TTF_RenderText_Blended := fun _ _ n _ => some { handle := 1, w := 8 * n, h := 16 },
    SDL_CreateTextureFromSurface := fun _ => some 2,
    fresh_int := fun _ => 0,
    fresh_vertex := fun _ =>
      { position := { x := 0, y := 0 }, color := { r := 0, g := 0, b := 0, a := 0 },
        tex_coord := { x := 0, y := 0 } } }

/-- A renderer with a black transparent draw colour and an empty log. -/
def sample_renderer : SDL_Renderer Int :=
  { draw_color := { r := 0, g := 0, b := 0, a := 0 }, log := [], killed := false }

/-- A backend context around `sample_renderer`, without font or white texture. -/
def sample_ctx : IRPluginBackendContext Int :=
  { renderer := sample_renderer, font := none, user_data := none }

/-- A frontend state whose buffers are empty with room for four commands, buffer `0`
being bound. -/
def sample_canvas : CanvasState Int :=
  { mem := fun _ => { commands := [], capacity := 4 },
    current := some 0,
    size := (0, 0),
    offset := (0, 0),
    alloc_ok := true,
    stderr := [],
    push_calls := 0 }

/-- The same frontend state with no buffer bound. -/
def unbound_canvas : CanvasState Int :=
  { sample_canvas with current := none }

/-- A registry in which another plugin already holds the arc command id. -/
def arc_taken : Registry :=
  { Registry.empty with handlers := [(.CANVAS_CMD_ARC, .foreign 1)] }

/-! ## Further observations and samples -/

/-- The four bytes of a packed colour, most significant first: bits 31..24, 23..16,
15..8 and 7..0. -/
def channel_bytes (c : Nat) : SDL_Color :=
  { r := c / 2 ^ 24 % 2 ^ 8, g := c / 2 ^ 16 % 2 ^ 8, b := c / 2 ^ 8 % 2 ^ 8, a := c % 2 ^ 8 }

/-- The log line of a set-draw-colour call with the channels `k`. -/
def set_color_entry {F : Type} (k : SDL_Color) : LogEntry F :=
  { call := .SetRenderDrawColor k.r k.g k.b k.a, draw_color := k }

/-- The vertex colour that carries the channels `k`: each channel divided by `255.0f`. -/
def modulation_color {F : Type} (ops : FloatOps F) (k : SDL_Color) : SDL_FColor F :=
  { r := ops.div (ops.ofInt k.r) (ops.ofInt 255),
    g := ops.div (ops.ofInt k.g) (ops.ofInt 255),
    b := ops.div (ops.ofInt k.b) (ops.ofInt 255),
    a := ops.div (ops.ofInt k.a) (ops.ofInt 255) }

/-- Whether a backend call is a set-draw-colour call. -/
def SDLCall.sets_color {F : Type} : SDLCall F → Bool
  | .SetRenderDrawColor .. => true
  | _ => false

/-- The polylines submitted by the log lines, oldest first: the point list of every
`SDL_RenderLines` call. -/
def submitted_polylines {F : Type} (entries : List (LogEntry F)) :
    List (List (SDL_FPoint F)) :=
  entries.filterMap (fun e =>
    match e.call with
    | .RenderLines points _ => some points
    | _ => none)

/-- An environment in which no allocation succeeds. -/
def no_memory_env : Environment Int :=
  { sample_env with malloc := fun _ => false }

/-- Division of `x` by a positive `d`, rounded to the nearest integer. -/
def round_div (x d : Int) : Int := Int.fdiv (2 * x + d) (2 * d)

/-- The unit of the working precision of `decimal_sin` and `decimal_cos`: 21
fractional decimal digits. -/
def fine_scale : Int := 10 ^ 21

/-- The number `2 * pi` in units of `10 ^ -21`. -/
def fine_two_pi : Int := 6283185307179586476925

/-- Reduction of an angle, in units of `10 ^ -21`, to the nearest representative modulo
`2 * pi`. -/
def fine_reduce (x : Int) : Int := x - fine_two_pi * round_div x fine_two_pi

/-- Partial sums of the sine and cosine series at `r`, in units of `10 ^ -21`: `term`
is the current term, `j` the degree it has, `fuel` the number of terms to add. -/
def fine_series (r : Int) : Nat → Int → Int → Int
  | 0, _, _ => 0
  | fuel + 1, j, term =>
    term + fine_series r fuel (j + 2)
      (Int.fdiv (-(Int.fdiv (Int.fdiv (term * r) fine_scale * r) fine_scale))
        ((j + 1) * (j + 2)))

/-- Sine of an angle given in units of `10 ^ -7`, rounded to units of `10 ^ -7`. -/
def decimal_sin (a : Int) : Int :=
  round_div (fine_series (fine_reduce (a * 10 ^ 14)) 16 1 (fine_reduce (a * 10 ^ 14)))
    (10 ^ 14)

/-- Cosine of an angle given in units of `10 ^ -7`, rounded to units of `10 ^ -7`. -/
def decimal_cos (a : Int) : Int :=
  round_div (fine_series (fine_reduce (a * 10 ^ 14)) 16 0 fine_scale) (10 ^ 14)

/-- A decimal arithmetic with seven fractional digits standing in for single precision:
a value is an integer number of units of `10 ^ -7`, every operation rounds to the
nearest unit, and `M_PI` is `3.1415927`. As in single precision, `2 * M_PI` is not a
period of the sine: it is `6.2831854`, and the sine there rounds to `0.0000001`. -/
def decimal_ops : FloatOps Int :=
  { ofInt := fun n => n * 10 ^ 7,
    add := fun a b => a + b,
    sub := fun a b => a - b,
    mul := fun a b => round_div (a * b) (10 ^ 7),
    div := fun a b => round_div (a * 10 ^ 7) b,
    cosf := decimal_cos,
    sinf := decimal_sin,
    M_PI := 31415927,
    toU16 := fun a => (Int.fdiv a (10 ^ 7)).toNat % 65536 }

/-- One frontend call of the user drawing code. The first three are the functions of
the translation unit; `host_draw` stands for a frontend function of the host
(`draw_rect`, `draw_line`, `draw_text`, `draw_polygon`) recording the command `cmd`. -/
inductive FrontendCall (F : Type) where
  | draw_circle (cx cy radius : F) (color : Nat) (filled : Bool)
  | draw_ellipse (cx cy rx ry : F) (color : Nat) (filled : Bool)
  | draw_arc (cx cy radius start_angle end_angle : F) (color : Nat)
  | host_draw (cmd : kryon_command_t F)

/-- The command record a frontend call builds. -/
def FrontendCall.command {F : Type} : FrontendCall F → kryon_command_t F
  | .draw_circle cx cy radius color filled => .canvas_circle cx cy radius color filled
  | .draw_ellipse cx cy rx ry color filled => .canvas_ellipse cx cy rx ry color filled
  | .draw_arc cx cy radius start_angle end_angle color =>
    .canvas_arc cx cy radius start_angle end_angle color
  | .host_draw cmd => cmd

/-- Modelled from the spec: the frontend functions of the host, spec 4.3, "by extension
of the same pattern ... follows one contract": resolve the bound buffer, report and
return if there is none, else push the command and report a failed push. -/
def host_frontend_draw {F : Type} (s : CanvasState F) (cmd : kryon_command_t F) :
    CanvasState F :=
  record_command s cmd "draw"

/-- The effect of one frontend call on the frontend state. -/
def FrontendCall.run {F : Type} (s : CanvasState F) : FrontendCall F → CanvasState F
  | .draw_circle cx cy radius color filled => kryon_canvas_draw_circle s cx cy radius color filled
  | .draw_ellipse cx cy rx ry color filled => kryon_canvas_draw_ellipse s cx cy rx ry color filled
  | .draw_arc cx cy radius start_angle end_angle color =>
    kryon_canvas_draw_arc s cx cy radius start_angle end_angle color
  | .host_draw cmd => host_frontend_draw s cmd

/-- A user callback that makes the given frontend calls, in order, and nothing else. -/
def run_calls {F : Type} (calls : List (FrontendCall F)) (s : CanvasState F) : CanvasState F :=
  calls.foldl (fun t c => c.run t) s

/-- Whether the push a frontend call makes in state `s` returns success. -/
def push_succeeds {F : Type} (s : CanvasState F) (c : FrontendCall F) : Bool :=
  match kryon_canvas_get_command_buffer s with
  | none => false
  | some buf => (kryon_cmd_buf_push s.alloc_ok (s.mem buf) c.command).1

/-- Whether every push of a sequence of frontend calls made from state `s` returns
success. -/
def pushes_succeed {F : Type} : CanvasState F → List (FrontendCall F) → Bool
  | _, [] => true
  | s, c :: cs => push_succeeds s c && pushes_succeed (c.run s) cs

/-- The frontend state at the moment the user callback is invoked: what a pass whose
callback does nothing leaves as frontend state. -/
def callback_entry {F : Type} (ops : FloatOps F) (env : Environment F) (st : RenderState F)
    (component : IRComponent) (x y width height : F) : CanvasState F :=
  (canvas_component_renderer_sdl3 ops env (fun _ _ s => s) st component x y width
    height).canvas

/-- A render state left by an earlier pass: the static buffer is marked as set up and
still holds a rectangle command of that pass. -/
def stale_pass : RenderState Int :=
  { canvas :=
      { sample_canvas with mem := fun _ => { commands := [.draw_rect 1 1 1 1 0], capacity := 4 } },
    buffer_initialized := true,
    ctx := sample_ctx }

/-- A sample component. -/
def sample_component : IRComponent := { type := 10, id := 1 }

/-- Two frontend calls of a sample callback: the rectangle of the scenario, then a
circle. -/
def sample_calls : List (FrontendCall Int) :=
  [.host_draw (.draw_rect 10 10 50 20 0xFF0000FF), .draw_circle 5 6 7 0xFF0000FF true]

/-! ## Iteration -/

theorem drain_from_eq_drop {F : Type} (buf : kryon_cmd_buf_t F) :
    ∀ (fuel pos : Nat), buf.commands.length ≤ pos + fuel →
      drain_from fuel { buf := buf, position := pos } = buf.commands.drop pos := by
  intro fuel
  induction fuel with
  | zero =>
    intro pos h
    simp only [drain_from]
    exact (List.drop_eq_nil_of_le (by omega)).symm
  | succ n ih =>
    intro pos h
    simp only [drain_from, kryon_cmd_iter_has_next, kryon_cmd_iter_next]
    by_cases hp : pos < buf.commands.length
    · have hget : buf.commands.get? pos = some (buf.commands.get ⟨pos, hp⟩) :=
        List.get?_eq_get hp
      simp only [hp, decide_True, if_true, hget]
      rw [ih (pos + 1) (by omega)]
      exact (List.drop_eq_getElem_cons hp).symm
    · simp only [hp, decide_False]
      exact (List.drop_eq_nil_of_le (by omega)).symm

theorem drain_eq_commands {F : Type} (buf : kryon_cmd_buf_t F) : drain buf = buf.commands := by
  unfold drain kryon_cmd_iter_create
  rw [drain_from_eq_drop buf _ 0 (by omega)]
  rfl

theorem drain_from_enough_fuel {F : Type} (buf : kryon_cmd_buf_t F) (fuel : Nat)
    (h : buf.commands.length ≤ fuel) :
    drain_from fuel (kryon_cmd_iter_create buf) = drain buf := by
  rw [drain_eq_commands]
  unfold kryon_cmd_iter_create
  rw [drain_from_eq_drop buf _ 0 (by omega)]
  rfl

/-! ## Frontend drawing API -/

theorem push_success_appends {F : Type} (alloc_ok : Bool) (buf : kryon_cmd_buf_t F)
    (cmd : kryon_command_t F) (hp : (kryon_cmd_buf_push alloc_ok buf cmd).1 = true) :
    (kryon_cmd_buf_push alloc_ok buf cmd).2.commands = buf.commands ++ [cmd] := by
  unfold kryon_cmd_buf_push at hp ⊢
  by_cases h1 : buf.commands.length < buf.capacity
  · simp [h1]
  · by_cases h2 : alloc_ok = true
    · simp [h1, h2]
    · simp [h1, h2] at hp

theorem record_command_bound {F : Type} (s : CanvasState F) (p : Nat)
    (cmd : kryon_command_t F) (what : String)
    (hb : kryon_canvas_get_command_buffer s = some p)
    (hp : (kryon_cmd_buf_push s.alloc_ok (s.mem p) cmd).1 = true) :
    pushed_last s (record_command s cmd what) p cmd cmd.type := by
  have hrec : record_command s cmd what = (push_at s p cmd).2 := by
    unfold record_command
    rw [hb]
    simp only [push_at, hp, if_true]
  have hmem : ((record_command s cmd what).mem p).commands = (s.mem p).commands ++ [cmd] := by
    rw [hrec]
    simpa [push_at] using push_success_appends _ _ _ hp
  refine ⟨hmem, by rw [hmem]; simp, ?_, ?_, rfl, ?_, ?_, ?_⟩
  · rw [drain_eq_commands, drain_eq_commands, hmem]
  · rw [drain_eq_commands, hmem]; simp
  · intro q hq
    rw [hrec]
    simp [push_at, hq]
  · rw [hrec]; rfl
  · rw [hrec]; rfl

theorem record_command_unbound {F : Type} (s : CanvasState F) (cmd : kryon_command_t F)
    (what : String) (hb : kryon_canvas_get_command_buffer s = none) :
    dropped s (record_command s cmd what) := by
  have hrec : record_command s cmd what
      = fprintf_stderr s "[canvas_plugin] No canvas command buffer available\n" := by
    unfold record_command
    rw [hb]
  rw [hrec]
  exact ⟨rfl, rfl, fun _ => rfl, rfl, rfl⟩

/-- Claim C1. With a buffer bound at address `p` and the push succeeding,
`kryon_canvas_draw_circle` appends exactly one command, tagged `CANVAS_CMD_CIRCLE`,
whose fields are the arguments; the commands already in the buffer stay as they
were in front of it and draining the buffer yields it last. The same holds for
`kryon_canvas_draw_ellipse` and `kryon_canvas_draw_arc` with their own tags. -/
theorem frontend_push_roundtrip {F : Type} (s : CanvasState F) (p : Nat)
    (hb : kryon_canvas_get_command_buffer s = some p) :
    (∀ (cx cy radius : F) (color : Nat) (filled : Bool),
      (kryon_cmd_buf_push s.alloc_ok (s.mem p)
        (.canvas_circle cx cy radius color filled)).1 = true →
      pushed_last s (kryon_canvas_draw_circle s cx cy radius color filled) p
        (.canvas_circle cx cy radius color filled) .CANVAS_CMD_CIRCLE) ∧
    (∀ (cx cy rx ry : F) (color : Nat) (filled : Bool),
      (kryon_cmd_buf_push s.alloc_ok (s.mem p)
        (.canvas_ellipse cx cy rx ry color filled)).1 = true →
      pushed_last s (kryon_canvas_draw_ellipse s cx cy rx ry color filled) p
        (.canvas_ellipse cx cy rx ry color filled) .CANVAS_CMD_ELLIPSE) ∧
    (∀ (cx cy radius start_angle end_angle : F) (color : Nat),
      (kryon_cmd_buf_push s.alloc_ok (s.mem p)
        (.canvas_arc cx cy radius start_angle end_angle color)).1 = true →
      pushed_last s (kryon_canvas_draw_arc s cx cy radius start_angle end_angle color) p
        (.canvas_arc cx cy radius start_angle end_angle color) .CANVAS_CMD_ARC) := by
  refine ⟨?_, ?_, ?_⟩
  · intro cx cy radius color filled hp
    exact record_command_bound s p _ "circle" hb hp
  · intro cx cy rx ry color filled hp
    exact record_command_bound s p _ "ellipse" hb hp
  · intro cx cy radius start_angle end_angle color hp
    exact record_command_bound s p _ "arc" hb hp

/-- Claim C1 on a sample: a circle drawn into the empty bound buffer `0`. -/
theorem frontend_push_roundtrip_witness :
    kryon_canvas_get_command_buffer sample_canvas = some 0 ∧
    pushed_last sample_canvas (kryon_canvas_draw_circle sample_canvas 5 6 7 0xFF0000FF true) 0
      (.canvas_circle 5 6 7 0xFF0000FF true) .CANVAS_CMD_CIRCLE :=
  ⟨rfl, (frontend_push_roundtrip sample_canvas 0 rfl).1 5 6 7 0xFF0000FF true rfl⟩

/-- Claim C2. With no buffer bound, the three frontend functions never call
`kryon_cmd_buf_push` and record nothing: every buffer and the binding are as before
and one diagnostic line has been written. -/
theorem frontend_unbound_drops {F : Type} (s : CanvasState F)
    (hb : kryon_canvas_get_command_buffer s = none) :
    (∀ (cx cy radius : F) (color : Nat) (filled : Bool),
      dropped s (kryon_canvas_draw_circle s cx cy radius color filled)) ∧
    (∀ (cx cy rx ry : F) (color : Nat) (filled : Bool),
      dropped s (kryon_canvas_draw_ellipse s cx cy rx ry color filled)) ∧
    (∀ (cx cy radius start_angle end_angle : F) (color : Nat),
      dropped s (kryon_canvas_draw_arc s cx cy radius start_angle end_angle color)) := by
  refine ⟨?_, ?_, ?_⟩
  · intro cx cy radius color filled
    exact record_command_unbound s _ "circle" hb
  · intro cx cy rx ry color filled
    exact record_command_unbound s _ "ellipse" hb
  · intro cx cy radius start_angle end_angle color
    exact record_command_unbound s _ "arc" hb

/-- Claim C2 on a sample: a circle drawn with nothing bound. -/
theorem frontend_unbound_drops_witness :
    kryon_canvas_get_command_buffer unbound_canvas = none ∧
    dropped unbound_canvas (kryon_canvas_draw_circle unbound_canvas 5 6 7 0xFF0000FF true) :=
  ⟨rfl, (frontend_unbound_drops unbound_canvas rfl).1 5 6 7 0xFF0000FF true⟩

/-! ## Colour unpacking -/

theorem and_255 (n : Nat) : n &&& 0xFF = n % 256 := by
  have h : (0xFF : Nat) = 2 ^ 8 - 1 := by norm_num
  rw [h, Nat.and_pow_two_sub_one_eq_mod]

theorem color_r_eq (c : Nat) : color_r c = c / 2 ^ 24 % 256 := by
  unfold color_r; rw [and_255, Nat.shiftRight_eq_div_pow]

theorem color_g_eq (c : Nat) : color_g c = c / 2 ^ 16 % 256 := by
  unfold color_g; rw [and_255, Nat.shiftRight_eq_div_pow]

theorem color_b_eq (c : Nat) : color_b c = c / 2 ^ 8 % 256 := by
  unfold color_b; rw [and_255, Nat.shiftRight_eq_div_pow]

theorem color_a_eq (c : Nat) : color_a c = c % 256 := by
  unfold color_a; rw [and_255]

theorem pack_color_eq_add (r g b a : Nat) (hg : g < 256) (hb : b < 256) (ha : a < 256) :
    pack_color r g b a = r * 2 ^ 24 + g * 2 ^ 16 + b * 2 ^ 8 + a := by
  have s1 : 2 ^ 24 * r ||| g * 2 ^ 16 = 2 ^ 24 * r + g * 2 ^ 16 :=
    (Nat.mul_add_lt_is_or (by omega) r).symm
  have s2 : 2 ^ 16 * (2 ^ 8 * r + g) ||| b * 2 ^ 8 = 2 ^ 16 * (2 ^ 8 * r + g) + b * 2 ^ 8 :=
    (Nat.mul_add_lt_is_or (by omega) _).symm
  have s3 : 2 ^ 8 * (2 ^ 16 * r + 2 ^ 8 * g + b) ||| a
      = 2 ^ 8 * (2 ^ 16 * r + 2 ^ 8 * g + b) + a :=
    (Nat.mul_add_lt_is_or (by omega) _).symm
  have e1 : r * 2 ^ 24 = 2 ^ 24 * r := Nat.mul_comm _ _
  have e2 : 2 ^ 24 * r + g * 2 ^ 16 = 2 ^ 16 * (2 ^ 8 * r + g) := by omega
  have e3 : 2 ^ 16 * (2 ^ 8 * r + g) + b * 2 ^ 8 = 2 ^ 8 * (2 ^ 16 * r + 2 ^ 8 * g + b) := by
    omega
  have e4 : r * 2 ^ 24 + g * 2 ^ 16 + b * 2 ^ 8 + a
      = 2 ^ 8 * (2 ^ 16 * r + 2 ^ 8 * g + b) + a := by omega
  unfold pack_color
  rw [Nat.shiftLeft_eq, Nat.shiftLeft_eq, Nat.shiftLeft_eq, e4, e1, s1, e2, s2, e3, s3]

/-! ## Polygon triangulation -/

theorem fresh_array_length {α : Type} (content : Nat → α) (n : Nat) :
    (fresh_array content n).length = n := by
  simp [fresh_array]

theorem fill_vertices_spec {F : Type} (ops : FloatOps F) (vertices : Nat → F) (n : Nat)
    (r g b a : Nat) (hn : n < 65536) :
    ∀ (fuel i : Nat) (l : List (SDL_Vertex F)), l.length = n → i ≤ n → n ≤ i + fuel →
      (fill_vertices ops vertices n r g b a fuel i l).length = n ∧
      (∀ k, k < i → (fill_vertices ops vertices n r g b a fuel i l)[k]? = l[k]?) ∧
      (∀ j, i ≤ j → j < n →
        ((fill_vertices ops vertices n r g b a fuel i l)[j]?).map (fun v => v.position)
          = some { x := vertices (2 * j), y := vertices (2 * j + 1) }) := by
  intro fuel
  induction fuel with
  | zero =>
    intro i l hl hi hf
    simp only [fill_vertices]
    refine ⟨hl, fun _ _ => trivial, ?_⟩
    intro j h1 h2
    omega
  | succ f ih =>
    intro i l hl hi hf
    simp only [fill_vertices]
    by_cases hc : i < n
    · have hmod : (i + 1) % 65536 = i + 1 := Nat.mod_eq_of_lt (by omega)
      simp only [hc, if_true, hmod]
      obtain ⟨r1, r2, r3⟩ := ih (i + 1) (l.set i _) (by simp only [List.length_set]; exact hl)
        (by omega) (by omega)
      refine ⟨r1, ?_, ?_⟩
      · intro k hk
        rw [r2 k (by omega), List.getElem?_set_ne (by omega)]
      · intro j h1 h2
        by_cases hj : j = i
        · subst hj
          rw [r2 _ (by omega), List.getElem?_set_self (by omega)]
          simp only [Option.map_some', Nat.mul_comm 2 j]
        · exact r3 j (by omega) h2
    · simp only [hc, if_false]
      refine ⟨hl, fun _ _ => trivial, ?_⟩
      intro j h1 h2
      omega

theorem polygon_vertices_spec {F : Type} (ops : FloatOps F) (env : Environment F)
    (vertices : Nat → F) (n color : Nat) (hn : n < 65536) :
    (polygon_vertices ops env vertices n color).length = n ∧
    (∀ j, j < n →
      ((polygon_vertices ops env vertices n color)[j]?).map (fun v => v.position)
        = some { x := vertices (2 * j), y := vertices (2 * j + 1) }) := by
  obtain ⟨r1, _, r3⟩ := fill_vertices_spec ops vertices n (color_r color) (color_g color)
    (color_b color) (color_a color) hn n 0 (fresh_array env.fresh_vertex n)
    (fresh_array_length _ _) (by omega) (by omega)
  exact ⟨r1, fun j hj => r3 j (by omega) hj⟩

theorem fill_vertices_full {F : Type} (ops : FloatOps F) (vertices : Nat → F) (n : Nat)
    (r g b a : Nat) (hn : n < 65536) :
    ∀ (fuel i : Nat) (l : List (SDL_Vertex F)), l.length = n → i ≤ n → n ≤ i + fuel →
      (∀ k, k < i → (fill_vertices ops vertices n r g b a fuel i l)[k]? = l[k]?) ∧
      (∀ j, i ≤ j → j < n →
        (fill_vertices ops vertices n r g b a fuel i l)[j]?
          = some
            { position := { x := vertices (2 * j), y := vertices (2 * j + 1) },
              color := modulation_color ops { r := r, g := g, b := b, a := a },
              tex_coord := { x := ops.ofInt 0, y := ops.ofInt 0 } }) := by
  intro fuel
  induction fuel with
  | zero =>
    intro i l hl hi hf
    simp only [fill_vertices]
    refine ⟨fun _ _ => trivial, ?_⟩
    intro j h1 h2
    omega
  | succ f ih =>
    intro i l hl hi hf
    simp only [fill_vertices]
    by_cases hc : i < n
    · have hmod : (i + 1) % 65536 = i + 1 := Nat.mod_eq_of_lt (by omega)
      simp only [hc, if_true, hmod]
      obtain ⟨r2, r3⟩ := ih (i + 1) (l.set i _) (by simp only [List.length_set]; exact hl)
        (by omega) (by omega)
      refine ⟨?_, ?_⟩
      · intro k hk
        rw [r2 k (by omega), List.getElem?_set_ne (by omega)]
      · intro j h1 h2
        by_cases hj : j = i
        · subst hj
          rw [r2 _ (by omega), List.getElem?_set_self (by omega)]
          simp only [modulation_color, Nat.mul_comm 2 j]
        · exact r3 j (by omega) h2
    · simp only [hc, if_false]
      refine ⟨fun _ _ => trivial, ?_⟩
      intro j h1 h2
      omega

theorem polygon_vertices_full {F : Type} (ops : FloatOps F) (env : Environment F)
    (vertices : Nat → F) (n color : Nat) (hn : n < 65536) :
    ∀ j, j < n →
      (polygon_vertices ops env vertices n color)[j]?
        = some
          { position := { x := vertices (2 * j), y := vertices (2 * j + 1) },
            color := modulation_color ops (decode_color color),
            tex_coord := { x := ops.ofInt 0, y := ops.ofInt 0 } } := by
  intro j hj
  exact (fill_vertices_full ops vertices n (color_r color) (color_g color) (color_b color)
    (color_a color) hn n 0 (fresh_array env.fresh_vertex n) (fresh_array_length _ _)
    (by omega) (by omega)).2 j (by omega) hj

/-! ## Backend calls of the execution routines -/

theorem decode_color_eq_bytes (c : Nat) : decode_color c = channel_bytes c := by
  simp only [decode_color, channel_bytes, color_r_eq, color_g_eq, color_b_eq, color_a_eq]
  norm_num

theorem set_color_log {F : Type} (rs : SDL_Renderer F) (c : Nat) :
    SDL_SetRenderDrawColor rs (color_r c) (color_g c) (color_b c) (color_a c)
      = { rs with draw_color := decode_color c,
                  log := rs.log ++ [set_color_entry (decode_color c)] } := rfl

theorem lines_fold_log {F : Type} (f : Nat → List (SDL_FPoint F)) (k : Nat) :
    ∀ (l : List Nat) (rs : SDL_Renderer F),
      l.foldl (fun r i => SDL_RenderLines r (f i) k) rs
        = { rs with
            log := rs.log ++
              l.map (fun i => { call := .RenderLines (f i) k, draw_color := rs.draw_color }) } := by
  intro l
  induction l with
  | nil => intro rs; simp
  | cons a t ih =>
    intro rs
    rw [List.foldl_cons, ih]
    simp [SDL_RenderLines, SDL_Renderer.issue]

theorem new_entries_append {F : Type} (rs after : SDL_Renderer F) (xs : List (LogEntry F))
    (h : after.log = rs.log ++ xs) : new_entries rs after = xs := by
  simp [new_entries, h]

theorem render_fan_log {F : Type} (ops : FloatOps F) (rs : SDL_Renderer F)
    (cx cy rx ry : F) (segments : Nat) :
    render_fan ops rs cx cy rx ry segments
      = { rs with
          log := rs.log ++
            (List.range segments).map (fun i =>
              { call := .RenderLines
                  [{ x := cx, y := cy },
                   ellipse_point ops cx cy rx ry (turn_angle ops i segments),
                   ellipse_point ops cx cy rx ry (turn_angle ops (i + 1) segments)] 3,
                draw_color := rs.draw_color }) } := by
  unfold render_fan
  rw [lines_fold_log]

theorem render_outline_log {F : Type} (ops : FloatOps F) (env : Environment F)
    (rs : SDL_Renderer F) (cx cy rx ry : F) (segments : Nat) :
    render_outline ops env rs cx cy rx ry segments
      = { rs with
          log := rs.log ++
            (if env.malloc ((segments + 1) * sizeof_SDL_FPoint) then
              [{ call := .RenderLines
                  ((List.range (segments + 1)).map
                    (fun i => ellipse_point ops cx cy rx ry (turn_angle ops i segments)))
                  (segments + 1),
                 draw_color := rs.draw_color }]
            else []) } := by
  unfold render_outline
  cases env.malloc ((segments + 1) * sizeof_SDL_FPoint) <;>
    simp [SDL_RenderLines, SDL_Renderer.issue]

theorem handle_canvas_circle_entries {F : Type} (ops : FloatOps F) (env : Environment F)
    (rs : SDL_Renderer F) (cx cy radius : F) (color : Nat) (filled : Bool) :
    (new_entries rs (handle_canvas_circle ops env rs cx cy radius color filled)).head?
      = some (set_color_entry (decode_color color)) := by
  unfold handle_canvas_circle
  simp only [set_color_log]
  cases filled <;>
    simp [render_fan_log, render_outline_log, new_entries]

theorem handle_canvas_ellipse_entries {F : Type} (ops : FloatOps F) (env : Environment F)
    (rs : SDL_Renderer F) (cx cy rx ry : F) (color : Nat) (filled : Bool) :
    (new_entries rs (handle_canvas_ellipse ops env rs cx cy rx ry color filled)).head?
      = some (set_color_entry (decode_color color)) := by
  unfold handle_canvas_ellipse
  simp only [set_color_log]
  cases filled <;>
    simp [render_fan_log, render_outline_log, new_entries]

theorem handle_canvas_arc_entries {F : Type} (ops : FloatOps F) (env : Environment F)
    (rs : SDL_Renderer F) (cx cy radius start_angle end_angle : F) (color : Nat) :
    (new_entries rs
        (handle_canvas_arc ops env rs cx cy radius start_angle end_angle color)).head?
      = some (set_color_entry (decode_color color)) := by
  unfold handle_canvas_arc
  simp only [set_color_log]
  cases env.malloc ((32 + 1) * sizeof_SDL_FPoint) <;>
    simp [SDL_RenderLines, SDL_Renderer.issue, new_entries]

theorem exec_rect {F : Type} (ops : FloatOps F) (env : Environment F)
    (font user_data : Option Nat) (rs : SDL_Renderer F) (x y w h : F) (color : Nat)
    (ha : rs.killed = false) :
    exec_command ops env font user_data rs (.draw_rect x y w h color)
      = { rs with
          draw_color := decode_color color,
          log := rs.log ++
            [set_color_entry (decode_color color),
             { call := .RenderFillRect { x := x, y := y, w := w, h := h },
               draw_color := decode_color color }] } := by
  simp [exec_command, ha, set_color_log, SDL_RenderFillRect, SDL_Renderer.issue]

theorem exec_line {F : Type} (ops : FloatOps F) (env : Environment F)
    (font user_data : Option Nat) (rs : SDL_Renderer F) (x1 y1 x2 y2 : F) (color : Nat)
    (ha : rs.killed = false) :
    exec_command ops env font user_data rs (.draw_line x1 y1 x2 y2 color)
      = { rs with
          draw_color := decode_color color,
          log := rs.log ++
            [set_color_entry (decode_color color),
             { call := .RenderLine x1 y1 x2 y2, draw_color := decode_color color }] } := by
  simp [exec_command, ha, set_color_log, SDL_RenderLine, SDL_Renderer.issue]

theorem exec_draw_arc {F : Type} (ops : FloatOps F) (env : Environment F)
    (font user_data : Option Nat) (rs : SDL_Renderer F) (cx cy : Int) (radius : Nat)
    (start_angle end_angle : Int) (color : Nat) (ha : rs.killed = false) :
    exec_command ops env font user_data rs
        (.draw_arc cx cy radius start_angle end_angle color)
      = if env.malloc ((32 + 1) * sizeof_SDL_FPoint) then
          { rs with
            draw_color := decode_color color,
            log := rs.log ++
              [set_color_entry (decode_color color),
               { call := .RenderLines
                   ((List.range (32 + 1)).map
                     (fun i => arc_point ops (ops.ofInt cx) (ops.ofInt cy) (ops.ofInt radius)
                       (ops.ofInt start_angle) (ops.ofInt (end_angle - start_angle)) 32 i))
                   (32 + 1),
                 draw_color := decode_color color }] }
        else rs := by
  cases hm : env.malloc ((32 + 1) * sizeof_SDL_FPoint) <;>
    simp [exec_command, ha, hm, set_color_log, SDL_RenderLines, SDL_Renderer.issue]

theorem exec_polygon {F : Type} (ops : FloatOps F) (env : Environment F)
    (font user_data : Option Nat) (rs : SDL_Renderer F) (vertices : Nat → F)
    (n color : Nat) (ha : rs.killed = false) (hn3 : 3 ≤ n)
    (hv : env.malloc (n * sizeof_SDL_Vertex) = true)
    (hi : env.malloc ((n - 2) * 3 * sizeof_int) = true) :
    exec_command ops env font user_data rs (.draw_polygon vertices n color true)
      = { rs with
          draw_color := { r := 255, g := 255, b := 255, a := 255 },
          log := rs.log ++
            [set_color_entry { r := 255, g := 255, b := 255, a := 255 },
             { call := .RenderGeometry user_data (polygon_vertices ops env vertices n color) n
                 (polygon_indices env n) ((n - 2) * 3),
               draw_color := { r := 255, g := 255, b := 255, a := 255 } }] } := by
  simp [exec_command, ha, hn3, hv, hi, SDL_RenderGeometry, SDL_SetRenderDrawColor,
    SDL_Renderer.issue, set_color_entry]

theorem exec_polygon_no_memory {F : Type} (ops : FloatOps F) (env : Environment F)
    (font user_data : Option Nat) (rs : SDL_Renderer F) (vertices : Nat → F)
    (n color : Nat) (ha : rs.killed = false) (hn3 : 3 ≤ n)
    (hm : env.malloc (n * sizeof_SDL_Vertex) = false ∨
      env.malloc ((n - 2) * 3 * sizeof_int) = false) :
    exec_command ops env font user_data rs (.draw_polygon vertices n color true)
      = { rs with killed := true } := by
  rcases hm with hm | hm
  · simp [exec_command, ha, hn3, hm]
  · cases hv : env.malloc (n * sizeof_SDL_Vertex) <;> simp [exec_command, ha, hn3, hm, hv]

theorem exec_text_log {F : Type} (ops : FloatOps F) (env : Environment F) (font : Nat)
    (rs : SDL_Renderer F) (x y : F) (color : Nat) (text : String) :
    ∃ rest : List (SDLCall F),
      exec_text ops env font rs x y color text
        = { rs with
            log := rs.log ++
              ((SDLCall.TTF_RenderText_Blended font text text.utf8ByteSize (decode_color color)
                :: rest).map (fun c => { call := c, draw_color := rs.draw_color })) } ∧
      ∀ c ∈ rest, c.sets_color = false := by
  cases h1 : env.TTF_RenderText_Blended font text text.utf8ByteSize (decode_color color) with
  | none =>
    exact ⟨[], by simp [exec_text, h1, SDL_Renderer.issue], by simp⟩
  | some surf =>
    cases h2 : env.SDL_CreateTextureFromSurface surf with
    | none =>
      exact ⟨[.CreateTextureFromSurface surf, .DestroySurface surf],
        by simp [exec_text, h1, h2, SDL_Renderer.issue], by simp [SDLCall.sets_color]⟩
    | some tex =>
      exact ⟨[.CreateTextureFromSurface surf, .SetTextureScaleMode tex,
          .RenderTexture tex
            { x := x, y := y, w := ops.ofInt surf.w, h := ops.ofInt surf.h },
          .DestroyTexture tex, .DestroySurface surf],
        by simp [exec_text, h1, h2, SDL_Renderer.issue], by simp [SDLCall.sets_color]⟩

theorem exec_text_cmd {F : Type} (ops : FloatOps F) (env : Environment F)
    (f : Nat) (user_data : Option Nat) (rs : SDL_Renderer F) (x y : F) (color : Nat)
    (text : String) (ha : rs.killed = false) :
    exec_command ops env (some f) user_data rs (.draw_text x y color text)
      = exec_text ops env f rs x y color text := by
  simp [exec_command, ha]

/-- Claim C3. For a 32-bit colour `c` the channels are bits 31..24, 23..16, 15..8 and
7..0 of `c`, each below 256, and `(r << 24) | (g << 16) | (b << 8) | a` gives `c` back.
These are the channels every execution routine extracts: the circle, ellipse and arc
handlers start with a set-draw-colour call on exactly these four bytes, in this order;
so do the rect and line cases of the drain loop and its arc case when it draws; the
polygon case puts these bytes, each over `255.0f`, into the colour of every vertex of
the mesh it submits; the text case hands them to the text rasteriser. -/
theorem unpack_lossless (c : Nat) (hc : c < 2 ^ 32) :
    (color_r c = c / 2 ^ 24 % 2 ^ 8 ∧ color_g c = c / 2 ^ 16 % 2 ^ 8 ∧
      color_b c = c / 2 ^ 8 % 2 ^ 8 ∧ color_a c = c % 2 ^ 8) ∧
    (color_r c < 256 ∧ color_g c < 256 ∧ color_b c < 256 ∧ color_a c < 256) ∧
    decode_color c = { r := color_r c, g := color_g c, b := color_b c, a := color_a c } ∧
    pack_color (color_r c) (color_g c) (color_b c) (color_a c) = c ∧
    (∀ (F : Type) (ops : FloatOps F) (env : Environment F) (rs : SDL_Renderer F),
      (∀ cx cy radius filled,
        (new_entries rs (handle_canvas_circle ops env rs cx cy radius c filled)).head?
          = some (set_color_entry (channel_bytes c))) ∧
      (∀ cx cy rx ry filled,
        (new_entries rs (handle_canvas_ellipse ops env rs cx cy rx ry c filled)).head?
          = some (set_color_entry (channel_bytes c))) ∧
      (∀ cx cy radius start_angle end_angle,
        (new_entries rs
            (handle_canvas_arc ops env rs cx cy radius start_angle end_angle c)).head?
          = some (set_color_entry (channel_bytes c))) ∧
      (rs.killed = false → ∀ font user_data : Option Nat,
        (∀ x y w h,
          (new_entries rs
              (exec_command ops env font user_data rs (.draw_rect x y w h c))).head?
            = some (set_color_entry (channel_bytes c))) ∧
        (∀ x1 y1 x2 y2,
          (new_entries rs
              (exec_command ops env font user_data rs (.draw_line x1 y1 x2 y2 c))).head?
            = some (set_color_entry (channel_bytes c))) ∧
        (∀ cx cy radius start_angle end_angle,
          env.malloc ((32 + 1) * sizeof_SDL_FPoint) = true →
          (new_entries rs
              (exec_command ops env font user_data rs
                (.draw_arc cx cy radius start_angle end_angle c))).head?
            = some (set_color_entry (channel_bytes c))) ∧
        (∀ vertices n, 3 ≤ n → n < 65536 →
          env.malloc (n * sizeof_SDL_Vertex) = true →
          env.malloc ((n - 2) * 3 * sizeof_int) = true →
          new_entries rs
              (exec_command ops env font user_data rs (.draw_polygon vertices n c true))
            = [set_color_entry { r := 255, g := 255, b := 255, a := 255 },
               { call := .RenderGeometry user_data (polygon_vertices ops env vertices n c) n
                   (polygon_indices env n) ((n - 2) * 3),
                 draw_color := { r := 255, g := 255, b := 255, a := 255 } }] ∧
          ∀ j, j < n →
            ((polygon_vertices ops env vertices n c)[j]?).map (fun v => v.color)
              = some (modulation_color ops (channel_bytes c))) ∧
        (∀ f x y text,
          (new_entries rs
              (exec_command ops env (some f) user_data rs (.draw_text x y c text))).head?
            = some
              { call := .TTF_RenderText_Blended f text text.utf8ByteSize (channel_bytes c),
                draw_color := rs.draw_color }))) := by
  have hr := color_r_eq c
  have hg := color_g_eq c
  have hb := color_b_eq c
  have ha := color_a_eq c
  refine ⟨⟨hr, hg, hb, ha⟩, ⟨by omega, by omega, by omega, by omega⟩, rfl, ?_, ?_⟩
  · rw [pack_color_eq_add _ _ _ _ (by omega) (by omega) (by omega)]
    omega
  · intro F ops env rs
    rw [← decode_color_eq_bytes]
    refine ⟨fun cx cy radius filled => handle_canvas_circle_entries ops env rs cx cy radius c filled,
      fun cx cy rx ry filled => handle_canvas_ellipse_entries ops env rs cx cy rx ry c filled,
      fun cx cy radius sa ea => handle_canvas_arc_entries ops env rs cx cy radius sa ea c, ?_⟩
    intro halive font user_data
    refine ⟨?_, ?_, ?_, ?_, ?_⟩
    · intro x y w h
      rw [exec_rect ops env font user_data rs x y w h c halive]
      simp [new_entries]
    · intro x1 y1 x2 y2
      rw [exec_line ops env font user_data rs x1 y1 x2 y2 c halive]
      simp [new_entries]
    · intro cx cy radius sa ea hm
      rw [exec_draw_arc ops env font user_data rs cx cy radius sa ea c halive]
      simp [new_entries, hm]
    · intro vertices n hn3 hn hv hi
      refine ⟨?_, ?_⟩
      · rw [exec_polygon ops env font user_data rs vertices n c halive hn3 hv hi]
        simp [new_entries]
      · intro j hj
        rw [polygon_vertices_full ops env vertices n c hn j hj]
        rfl
    · intro f x y text
      rw [exec_text_cmd ops env f user_data rs x y c text halive]
      obtain ⟨rest, hlog, _⟩ := exec_text_log ops env f rs x y c text
      rw [hlog]
      simp [new_entries]

/-- Claim C3 on the colour `0xFF0000FF`: the bytes are `(255, 0, 0, 255)` and the circle
handler starts by setting them as draw colour. -/
theorem unpack_lossless_witness :
    (0xFF0000FF : Nat) < 2 ^ 32 ∧
    pack_color (color_r 0xFF0000FF) (color_g 0xFF0000FF) (color_b 0xFF0000FF)
      (color_a 0xFF0000FF) = 0xFF0000FF ∧
    channel_bytes 0xFF0000FF = { r := 255, g := 0, b := 0, a := 255 } ∧
    (new_entries sample_renderer
        (handle_canvas_circle sample_ops sample_env sample_renderer 0 0 1 0xFF0000FF
          false)).head?
      = some (set_color_entry (channel_bytes 0xFF0000FF)) :=
  ⟨by norm_num, (unpack_lossless 0xFF0000FF (by norm_num)).2.2.2.1, by decide,
    ((unpack_lossless 0xFF0000FF (by norm_num)).2.2.2.2 Int sample_ops sample_env
      sample_renderer).1 0 0 1 false⟩

/-! ## Circle outline -/

theorem handle_canvas_circle_outline_log {F : Type} (ops : FloatOps F) (env : Environment F)
    (rs : SDL_Renderer F) (cx cy radius : F) (color : Nat) :
    handle_canvas_circle ops env rs cx cy radius color false
      = { rs with
          draw_color := decode_color color,
          log := rs.log ++
            (set_color_entry (decode_color color) ::
              (if env.malloc ((64 + 1) * sizeof_SDL_FPoint) then
                [{ call := .RenderLines
                    ((List.range (64 + 1)).map
                      (fun i => ellipse_point ops cx cy radius radius (turn_angle ops i 64)))
                    (64 + 1),
                   draw_color := decode_color color }]
              else [])) } := by
  unfold handle_canvas_circle
  simp only [set_color_log, Bool.false_eq_true, if_false, render_outline_log]
  simp

/-- Claim C10, as stated, fails. When the point array cannot be allocated, the handler
submits no polyline for an unfilled circle. When it can, and the arithmetic is the
seven-digit decimal one, the circle of centre `(0, 0)` and radius `1.0000000` gives one
polyline of 65 points whose first point is `(1.0000000, 0.0000000)` and whose last
point is `(1.0000000, 0.0000001)`: the two do not coincide. -/
theorem outline_not_always_closed :
    submitted_polylines
        (handle_canvas_circle sample_ops no_memory_env sample_renderer 0 0 1 0xFF0000FF
          false).log = [] ∧
    (submitted_polylines
        (handle_canvas_circle decimal_ops sample_env sample_renderer 0 0 10000000 0xFF0000FF
          false).log).map
        (fun points => (points.length, points.head?.map (fun p => (p.x, p.y)),
          points.getLast?.map (fun p => (p.x, p.y))))
      = [(65, some (10000000, 0), some (10000000, 1))] := by
  refine ⟨rfl, rfl⟩

/-- Claim C10, amended. For an unfilled Circle command the handler first sets the draw
colour. When the array of 65 points can be allocated it then submits exactly one
polyline, of exactly 65 points, point `i` (`0 ≤ i ≤ 64`) being
`(cx + radius * cosf(a_i), cy + radius * sinf(a_i))` with `a_i` the computed angle
`(2.0f * M_PI * i) / 64`; its first point is the sample at `a_0` and its last the
sample at `a_64`, so the polyline is closed exactly when those two samples are equal,
which holds whenever `cosf` and `sinf` return at `a_64` what they return at `a_0`.
When the array cannot be allocated, no polyline is submitted. -/
theorem circle_outline_shape {F : Type} (ops : FloatOps F) (env : Environment F)
    (rs : SDL_Renderer F) (cx cy radius : F) (color : Nat) :
    (env.malloc ((64 + 1) * sizeof_SDL_FPoint) = true →
      ∃ points : List (SDL_FPoint F),
        new_entries rs (handle_canvas_circle ops env rs cx cy radius color false)
          = [set_color_entry (decode_color color),
             { call := .RenderLines points 65, draw_color := decode_color color }] ∧
        submitted_polylines
            (new_entries rs (handle_canvas_circle ops env rs cx cy radius color false))
          = [points] ∧
        points.length = 65 ∧
        (∀ i, i ≤ 64 →
          points[i]? = some
            { x := ops.add cx (ops.mul radius (ops.cosf (turn_angle ops i 64))),
              y := ops.add cy (ops.mul radius (ops.sinf (turn_angle ops i 64))) }) ∧
        (points.head? = points.getLast? ↔
          ellipse_point ops cx cy radius radius (turn_angle ops 0 64)
            = ellipse_point ops cx cy radius radius (turn_angle ops 64 64)) ∧
        (ops.cosf (turn_angle ops 64 64) = ops.cosf (turn_angle ops 0 64) →
          ops.sinf (turn_angle ops 64 64) = ops.sinf (turn_angle ops 0 64) →
          points.head? = points.getLast?)) ∧
    (env.malloc ((64 + 1) * sizeof_SDL_FPoint) = false →
      new_entries rs (handle_canvas_circle ops env rs cx cy radius color false)
        = [set_color_entry (decode_color color)] ∧
      submitted_polylines
          (new_entries rs (handle_canvas_circle ops env rs cx cy radius color false))
        = []) := by
  constructor
  · intro hm
    have hat : ∀ i, i ≤ 64 →
        ((List.range (64 + 1)).map
          (fun i => ellipse_point ops cx cy radius radius (turn_angle ops i 64)))[i]?
          = some (ellipse_point ops cx cy radius radius (turn_angle ops i 64)) := by
      intro i hi
      rw [List.getElem?_map, List.getElem?_range (by omega)]
      rfl
    have hhead : ((List.range (64 + 1)).map
          (fun i => ellipse_point ops cx cy radius radius (turn_angle ops i 64))).head?
        = some (ellipse_point ops cx cy radius radius (turn_angle ops 0 64)) := by
      rw [List.head?_eq_getElem?]
      exact hat 0 (by omega)
    have hlast : ((List.range (64 + 1)).map
          (fun i => ellipse_point ops cx cy radius radius (turn_angle ops i 64))).getLast?
        = some (ellipse_point ops cx cy radius radius (turn_angle ops 64 64)) := by
      rw [List.getLast?_eq_getElem?]
      simp only [List.length_map, List.length_range]
      exact hat 64 (by omega)
    refine ⟨(List.range (64 + 1)).map
      (fun i => ellipse_point ops cx cy radius radius (turn_angle ops i 64)),
      ?_, ?_, ?_, ?_, ?_, ?_⟩
    · rw [handle_canvas_circle_outline_log]
      simp only [new_entries, hm, if_true, List.drop_left]
    · rw [handle_canvas_circle_outline_log]
      simp [new_entries, hm, submitted_polylines, set_color_entry]
    · simp
    · intro i hi
      exact hat i hi
    · rw [hhead, hlast]
      constructor
      · intro h; exact Option.some.inj h
      · intro h; rw [h]
    · intro hc hs
      rw [hhead, hlast]
      simp only [ellipse_point, hc, hs]
  · intro hm
    rw [handle_canvas_circle_outline_log]
    simp [new_entries, hm, submitted_polylines, set_color_entry]

/-- Claim C10, amended, on samples: with memory one polyline of 65 points, without
memory none. -/
theorem circle_outline_shape_witness :
    sample_env.malloc ((64 + 1) * sizeof_SDL_FPoint) = true ∧
    no_memory_env.malloc ((64 + 1) * sizeof_SDL_FPoint) = false ∧
    (∃ points : List (SDL_FPoint Int),
      submitted_polylines
          (new_entries sample_renderer
            (handle_canvas_circle sample_ops sample_env sample_renderer 0 0 1 0xFF0000FF
              false))
        = [points] ∧
      points.length = 65) ∧
    submitted_polylines
        (new_entries sample_renderer
          (handle_canvas_circle sample_ops no_memory_env sample_renderer 0 0 1 0xFF0000FF
            false))
      = [] :=
  ⟨rfl, rfl,
    (fun ⟨points, _, h2, h3, _⟩ => ⟨points, h2, h3⟩)
      ((circle_outline_shape sample_ops sample_env sample_renderer 0 0 1 0xFF0000FF).1 rfl),
    ((circle_outline_shape sample_ops no_memory_env sample_renderer 0 0 1 0xFF0000FF).2
      rfl).2⟩

/-! ## Drain pass -/

theorem drain_loop_eq_foldl {F : Type} (ops : FloatOps F) (env : Environment F)
    (font user_data : Option Nat) (buf : kryon_cmd_buf_t F) :
    ∀ (fuel pos : Nat) (rs : SDL_Renderer F), buf.commands.length ≤ pos + fuel →
      drain_loop ops env font user_data fuel { buf := buf, position := pos } rs
        = (buf.commands.drop pos).foldl (exec_command ops env font user_data) rs := by
  intro fuel
  induction fuel with
  | zero =>
    intro pos rs h
    simp only [drain_loop]
    rw [List.drop_eq_nil_of_le (by omega)]
    rfl
  | succ n ih =>
    intro pos rs h
    simp only [drain_loop, kryon_cmd_iter_has_next, kryon_cmd_iter_next]
    by_cases hp : pos < buf.commands.length
    · have hget : buf.commands.get? pos = some (buf.commands.get ⟨pos, hp⟩) :=
        List.get?_eq_get hp
      simp only [hp, decide_True, if_true, hget]
      rw [ih (pos + 1) _ (by omega), List.drop_eq_getElem_cons hp]
      rfl
    · simp only [hp, decide_False]
      rw [List.drop_eq_nil_of_le (by omega)]
      rfl

theorem drain_pass_eq_foldl {F : Type} (ops : FloatOps F) (env : Environment F)
    (ctx : IRPluginBackendContext F) (buf : kryon_cmd_buf_t F) :
    drain_pass ops env ctx buf
      = buf.commands.foldl (exec_command ops env ctx.font ctx.user_data) ctx.renderer := by
  unfold drain_pass kryon_cmd_iter_create
  rw [drain_loop_eq_foldl ops env ctx.font ctx.user_data buf _ 0 _ (by omega)]
  rfl

theorem init_cases {σ : Type} (host : PluginHost σ) (s : PluginState σ) :
    ((kryon_canvas_plugin_init true host s).1 = false ∧
      ∃ k, k < 6 ∧ init_journal host s = failed_journal k ∧
        (kryon_canvas_plugin_init true host s).2.registry
          = replay host (init_steps.take (k + 1)) s.registry) ∨
    ((kryon_canvas_plugin_init true host s).1 = true ∧ init_journal host s = full_journal ∧
      (kryon_canvas_plugin_init true host s).2.registry
        = replay host (init_steps ++ [.set_backend_capabilities canvas_capabilities])
            s.registry) := by
  simp only [init_journal, kryon_canvas_plugin_init, PluginHost.journaled, init_fail, if_true]
  cases h1 : (host.ir_plugin_register canvas_metadata s.registry).1
  · exact Or.inl ⟨by simp [h1], 0, by decide, by simp [h1, failed_journal, init_steps],
      by simp [h1, replay, HostCall.apply, init_steps]⟩
  cases h2 : (host.ir_plugin_register_handler .CANVAS_CMD_CIRCLE .handle_canvas_circle
    (host.ir_plugin_register canvas_metadata s.registry).2).1
  · exact Or.inl ⟨by simp [h1, h2], 1, by decide, by simp [h1, h2, failed_journal, init_steps],
      by simp [h1, h2, replay, HostCall.apply, init_steps]⟩
  cases h3 : (host.ir_plugin_register_handler .CANVAS_CMD_ELLIPSE .handle_canvas_ellipse
    (host.ir_plugin_register_handler .CANVAS_CMD_CIRCLE .handle_canvas_circle
    (host.ir_plugin_register canvas_metadata s.registry).2).2).1
  · exact Or.inl ⟨by simp [h1, h2, h3], 2, by decide,
      by simp [h1, h2, h3, failed_journal, init_steps],
      by simp [h1, h2, h3, replay, HostCall.apply, init_steps]⟩
  cases h4 : (host.ir_plugin_register_handler .CANVAS_CMD_ARC .handle_canvas_arc
    (host.ir_plugin_register_handler .CANVAS_CMD_ELLIPSE .handle_canvas_ellipse
    (host.ir_plugin_register_handler .CANVAS_CMD_CIRCLE .handle_canvas_circle
    (host.ir_plugin_register canvas_metadata s.registry).2).2).2).1
  · exact Or.inl ⟨by simp [h1, h2, h3, h4], 3, by decide,
      by simp [h1, h2, h3, h4, failed_journal, init_steps],
      by simp [h1, h2, h3, h4, replay, HostCall.apply, init_steps]⟩
  cases h5 : (host.ir_plugin_register_component_renderer 10 .canvas_component_renderer_sdl3
    (host.ir_plugin_register_handler .CANVAS_CMD_ARC .handle_canvas_arc
    (host.ir_plugin_register_handler .CANVAS_CMD_ELLIPSE .handle_canvas_ellipse
    (host.ir_plugin_register_handler .CANVAS_CMD_CIRCLE .handle_canvas_circle
    (host.ir_plugin_register canvas_metadata s.registry).2).2).2).2).1
  · exact Or.inl ⟨by simp [h1, h2, h3, h4, h5], 4, by decide,
      by simp [h1, h2, h3, h4, h5, failed_journal, init_steps],
      by simp [h1, h2, h3, h4, h5, replay, HostCall.apply, init_steps]⟩
  cases h6 : (host.ir_plugin_register_callback_bridge 10 .canvas_nim_callback_bridge
    (host.ir_plugin_register_component_renderer 10 .canvas_component_renderer_sdl3
    (host.ir_plugin_register_handler .CANVAS_CMD_ARC .handle_canvas_arc
    (host.ir_plugin_register_handler .CANVAS_CMD_ELLIPSE .handle_canvas_ellipse
    (host.ir_plugin_register_handler .CANVAS_CMD_CIRCLE .handle_canvas_circle
    (host.ir_plugin_register canvas_metadata s.registry).2).2).2).2).2).1
  · exact Or.inl ⟨by simp [h1, h2, h3, h4, h5, h6], 5, by decide,
      by simp [h1, h2, h3, h4, h5, h6, failed_journal, init_steps],
      by simp [h1, h2, h3, h4, h5, h6, replay, HostCall.apply, init_steps]⟩
  · exact Or.inr ⟨by simp [h1, h2, h3, h4, h5, h6],
      by simp [h1, h2, h3, h4, h5, h6, full_journal, init_steps],
      by simp [h1, h2, h3, h4, h5, h6, replay, HostCall.apply, init_steps]⟩

theorem failed_journal_ne_full (k : Nat) (hk : k < 6) : failed_journal k ≠ full_journal := by
  intro h
  have hlen := congrArg List.length h
  simp [failed_journal, full_journal, init_steps] at hlen
  omega

theorem failed_journal_no_caps (k : Nat) (hk : k < 6) :
    ∀ e ∈ failed_journal k, e.1 ≠ .set_backend_capabilities canvas_capabilities := by
  interval_cases k <;> simp [failed_journal, init_steps]

/-- Claim C6. With SDL3 enabled, init returns `true` exactly when the registry calls
it made are the six registrations, in the order metadata, circle handler, ellipse
handler, arc handler, component renderer at slot 10, callback bridge at slot 10, all
successful, followed by the setting of the capabilities. When it returns `false`,
some step `k` is the first to fail: the calls made are the first `k` steps, which
succeeded, and step `k`, which failed; no later step is made and the capabilities
are not set. -/
theorem init_registration_order {σ : Type} (host : PluginHost σ) (s : PluginState σ) :
    ((kryon_canvas_plugin_init true host s).1 = true ↔ init_journal host s = full_journal) ∧
    ((kryon_canvas_plugin_init true host s).1 = false →
      ∃ k, k < 6 ∧ init_journal host s = failed_journal k ∧
        ∀ e ∈ init_journal host s, e.1 ≠ .set_backend_capabilities canvas_capabilities) := by
  rcases init_cases host s with ⟨hf, k, hk, hj, _⟩ | ⟨ht, hj, _⟩
  · refine ⟨?_, ?_⟩
    · rw [hf, hj]
      constructor
      · intro h; cases h
      · intro h; exact absurd h (failed_journal_ne_full k hk)
    · intro _
      exact ⟨k, hk, hj, by rw [hj]; exact failed_journal_no_caps k hk⟩
  · refine ⟨?_, ?_⟩
    · rw [ht, hj]; simp
    · intro h; rw [ht] at h; cases h

/-- Claim C6 on a sample: with the arc command id taken, init fails and stops at its
fourth step. -/
theorem init_registration_order_witness :
    (kryon_canvas_plugin_init true Registry.host { registry := arc_taken, stderr := [] }).1
      = false ∧
    ∃ k, k < 6 ∧
      init_journal Registry.host { registry := arc_taken, stderr := [] } = failed_journal k ∧
      ∀ e ∈ init_journal Registry.host { registry := arc_taken, stderr := [] },
        e.1 ≠ .set_backend_capabilities canvas_capabilities :=
  ⟨by decide,
    (init_registration_order Registry.host { registry := arc_taken, stderr := [] }).2
      (by decide)⟩

theorem register_key_snd {κ : Type} [DecidableEq κ] (k : κ) (f : PluginFunction)
    (table : List (κ × PluginFunction)) (h : (register_key k f table).1 = true) :
    (register_key k f table).2 = table ++ [(k, f)] := by
  unfold register_key at h ⊢
  by_cases hany : table.any (fun e => decide (e.1 = k)) = true
  · simp [hany] at h
  · simp [hany]

theorem unregister_key_absent {κ : Type} [DecidableEq κ] (k : κ)
    (table : List (κ × PluginFunction)) (h : table.any (fun e => decide (e.1 = k)) = false) :
    unregister_key k table = table := by
  unfold unregister_key
  rw [List.filter_eq_self]
  intro a ha
  have hn : ¬ (table.any (fun e => decide (e.1 = k)) = true) := by simp [h]
  simp only [List.any_eq_true, not_exists, not_and] at hn
  simpa using hn a ha

theorem init_success_registry (r : Registry) (err : List String)
    (h : (kryon_canvas_plugin_init true Registry.host { registry := r, stderr := err }).1 = true) :
    (kryon_canvas_plugin_init true Registry.host { registry := r, stderr := err }).2.registry
      = { plugins := r.plugins ++ [canvas_metadata],
          handlers := r.handlers ++
            [(.CANVAS_CMD_CIRCLE, .handle_canvas_circle),
             (.CANVAS_CMD_ELLIPSE, .handle_canvas_ellipse),
             (.CANVAS_CMD_ARC, .handle_canvas_arc)],
          component_renderers := r.component_renderers ++ [(10, .canvas_component_renderer_sdl3)],
          callback_bridges := r.callback_bridges ++ [(10, .canvas_nim_callback_bridge)],
          capabilities := some canvas_capabilities } ∧
    r.handlers.any (fun e => decide (e.1 = CommandType.CANVAS_CMD_CIRCLE)) = false ∧
    r.handlers.any (fun e => decide (e.1 = CommandType.CANVAS_CMD_ELLIPSE)) = false ∧
    r.handlers.any (fun e => decide (e.1 = CommandType.CANVAS_CMD_ARC)) = false ∧
    r.component_renderers.any (fun e => decide (e.1 = 10)) = false ∧
    r.callback_bridges.any (fun e => decide (e.1 = 10)) = false := by
  simp only [kryon_canvas_plugin_init, Registry.host, init_fail, if_true] at h ⊢
  by_cases c1 : r.plugins.any (fun p => decide (p.name = canvas_metadata.name)) = true
  · simp [c1] at h
  by_cases c2 : r.handlers.any (fun e => decide (e.1 = CommandType.CANVAS_CMD_CIRCLE)) = true
  · simp [c1, c2, register_key] at h
  by_cases c3 : r.handlers.any (fun e => decide (e.1 = CommandType.CANVAS_CMD_ELLIPSE)) = true
  · simp [c1, c2, c3, register_key] at h
  by_cases c4 : r.handlers.any (fun e => decide (e.1 = CommandType.CANVAS_CMD_ARC)) = true
  · simp [c1, c2, c3, c4, register_key] at h
  by_cases c5 : r.component_renderers.any (fun e => decide (e.1 = 10)) = true
  · simp [c1, c2, c3, c4, c5, register_key] at h
  by_cases c6 : r.callback_bridges.any (fun e => decide (e.1 = 10)) = true
  · simp [c1, c2, c3, c4, c5, c6, register_key] at h
  simp only [Bool.not_eq_true] at c1 c2 c3 c4 c5 c6
  refine ⟨?_, c2, c3, c4, c5, c6⟩
  simp [c1, c2, c3, c4, c5, c6, register_key]

theorem shutdown_journal_eq {σ : Type} (host : PluginHost σ) (s : PluginState σ) :
    shutdown_journal host s =
      [(.unregister_component_renderer 10, true), (.unregister_callback_bridge 10, true),
       (.unregister_handler .CANVAS_CMD_CIRCLE, true),
       (.unregister_handler .CANVAS_CMD_ELLIPSE, true),
       (.unregister_handler .CANVAS_CMD_ARC, true)] := by
  simp [shutdown_journal, kryon_canvas_plugin_shutdown, PluginHost.journaled]

/-- Claim C7, as stated, fails: a successful init on the empty registry followed by
shutdown leaves the plugin metadata and the capabilities in the registry, so the
registry still holds an entry that init added. -/
theorem metadata_survives_shutdown :
    (kryon_canvas_plugin_init true Registry.host { registry := Registry.empty, stderr := [] }).1
      = true ∧
    (kryon_canvas_plugin_shutdown Registry.host
      (kryon_canvas_plugin_init true Registry.host
        { registry := Registry.empty, stderr := [] }).2).registry
      = { plugins := [canvas_metadata], handlers := [], component_renderers := [],
          callback_bridges := [], capabilities := some canvas_capabilities } ∧
    (kryon_canvas_plugin_shutdown Registry.host
      (kryon_canvas_plugin_init true Registry.host
        { registry := Registry.empty, stderr := [] }).2).registry ≠ Registry.empty := by
  decide

/-- Claim C7, amended. Shutdown makes exactly five registry calls: it unregisters the
component renderer at slot 10, the callback bridge at slot 10 and the circle, ellipse
and arc handlers, the keys init registered them under. After a successful init
followed by shutdown the handler, component renderer and callback bridge tables hold
no entry that init added: they are the tables from before init. -/
theorem shutdown_reverses_keyed (r : Registry) (err : List String)
    (h : (kryon_canvas_plugin_init true Registry.host { registry := r, stderr := err }).1 = true) :
    shutdown_journal Registry.host
        (kryon_canvas_plugin_init true Registry.host { registry := r, stderr := err }).2
      = [(.unregister_component_renderer 10, true), (.unregister_callback_bridge 10, true),
         (.unregister_handler .CANVAS_CMD_CIRCLE, true),
         (.unregister_handler .CANVAS_CMD_ELLIPSE, true),
         (.unregister_handler .CANVAS_CMD_ARC, true)] ∧
    (kryon_canvas_plugin_shutdown Registry.host
      (kryon_canvas_plugin_init true Registry.host
        { registry := r, stderr := err }).2).registry.handlers = r.handlers ∧
    (kryon_canvas_plugin_shutdown Registry.host
      (kryon_canvas_plugin_init true Registry.host
        { registry := r, stderr := err }).2).registry.component_renderers
      = r.component_renderers ∧
    (kryon_canvas_plugin_shutdown Registry.host
      (kryon_canvas_plugin_init true Registry.host
        { registry := r, stderr := err }).2).registry.callback_bridges
      = r.callback_bridges := by
  refine ⟨shutdown_journal_eq _ _, ?_⟩
  obtain ⟨hr, c2, c3, c4, c5, c6⟩ := init_success_registry r err h
  simp only [kryon_canvas_plugin_shutdown]
  rw [hr]
  have e2 := unregister_key_absent _ _ c2
  have e3 := unregister_key_absent _ _ c3
  have e4 := unregister_key_absent _ _ c4
  have e5 := unregister_key_absent _ _ c5
  have e6 := unregister_key_absent _ _ c6
  simp only [unregister_key] at e2 e3 e4 e5 e6
  simp [Registry.host, unregister_key, List.filter_append, e2, e3, e4, e5, e6]

/-- Claim C7, amended, on the empty registry. -/
theorem shutdown_reverses_keyed_witness :
    (kryon_canvas_plugin_init true Registry.host { registry := Registry.empty, stderr := [] }).1
      = true ∧
    (kryon_canvas_plugin_shutdown Registry.host
      (kryon_canvas_plugin_init true Registry.host
        { registry := Registry.empty, stderr := [] }).2).registry.handlers
      = Registry.empty.handlers :=
  ⟨by decide, (shutdown_reverses_keyed Registry.empty [] (by decide)).2.1⟩

/-- Claim C8, as stated, fails: with the arc command id already taken, init registers
the metadata and the circle and ellipse handlers, fails at the arc handler and returns
`false`; the three registrations stay, so the registry is not the one from before. -/
theorem partial_state_retained :
    (kryon_canvas_plugin_init true Registry.host { registry := arc_taken, stderr := [] }).1
      = false ∧
    (kryon_canvas_plugin_init true Registry.host { registry := arc_taken, stderr := [] }).2.registry
      = { plugins := [canvas_metadata],
          handlers := [(.CANVAS_CMD_ARC, .foreign 1),
                       (.CANVAS_CMD_CIRCLE, .handle_canvas_circle),
                       (.CANVAS_CMD_ELLIPSE, .handle_canvas_ellipse)],
          component_renderers := [], callback_bridges := [], capabilities := none } ∧
    (kryon_canvas_plugin_init true Registry.host { registry := arc_taken, stderr := [] }).2.registry
      ≠ arc_taken := by
  decide

/-- Claim C8, amended. When a registration step fails, init returns `false` at once
and undoes nothing: for the first failing step `k` the calls made are the first `k`
steps and the failing one, no unregistration among them, and the registry is left
exactly as those calls made it. -/
theorem failed_init_keeps_earlier_steps {σ : Type} (host : PluginHost σ) (s : PluginState σ)
    (h : (kryon_canvas_plugin_init true host s).1 = false) :
    ∃ k, k < 6 ∧ init_journal host s = failed_journal k ∧
      (kryon_canvas_plugin_init true host s).2.registry
        = replay host (init_steps.take (k + 1)) s.registry := by
  rcases init_cases host s with ⟨_, k, hk, hj, hr⟩ | ⟨ht, _, _⟩
  · exact ⟨k, hk, hj, hr⟩
  · rw [ht] at h; cases h

/-- Claim C8, amended, on the registry in which the arc command id is taken. -/
theorem failed_init_keeps_earlier_steps_witness :
    (kryon_canvas_plugin_init true Registry.host { registry := arc_taken, stderr := [] }).1
      = false ∧
    ∃ k, k < 6 ∧
      init_journal Registry.host { registry := arc_taken, stderr := [] } = failed_journal k ∧
      (kryon_canvas_plugin_init true Registry.host
          { registry := arc_taken, stderr := [] }).2.registry
        = replay Registry.host (init_steps.take (k + 1)) arc_taken :=
  ⟨by decide,
    failed_init_keeps_earlier_steps Registry.host { registry := arc_taken, stderr := [] }
      (by decide)⟩

/-! ## Draw colour at the first drawing call -/

/-- Claim C9, as stated, fails: a filled triangle of colour `0xFF0000FF` is drawn
while the draw-colour state is white, and a text command of that colour is drawn
while the draw-colour state is what it was before the command; the colour decoded
from the commands is `(255, 0, 0, 255)`. -/
theorem draw_color_not_own :
    first_draw_color sample_renderer
        (exec_command sample_ops sample_env none none sample_renderer
          (.draw_polygon (fun _ => 0) 3 0xFF0000FF true))
      = some { r := 255, g := 255, b := 255, a := 255 } ∧
    first_draw_color sample_renderer
        (exec_command sample_ops sample_env (some 7) none sample_renderer
          (.draw_text 0 0 0xFF0000FF "hi"))
      = some { r := 0, g := 0, b := 0, a := 0 } ∧
    decode_color 0xFF0000FF = { r := 255, g := 0, b := 0, a := 255 } ∧
    first_draw_color sample_renderer
        (exec_command sample_ops sample_env none none sample_renderer
          (.draw_polygon (fun _ => 0) 3 0xFF0000FF true))
      ≠ some (decode_color 0xFF0000FF) := by
  refine ⟨rfl, rfl, by decide, by decide⟩

/-- Claim C9, amended. Whatever the live renderer state `rs` left by the commands
before: a rect and a line command are drawn with the draw colour decoded from their
own packed colour; so is an arc command whenever it draws (it draws nothing when its
point array cannot be allocated). A filled polygon with at least three vertices whose
allocations succeed makes exactly two calls, the draw colour set to white
`(255, 255, 255, 255)` and the mesh, and every vertex of the mesh carries the
command's own channels, each over `255.0f`. A text command with a font bound leaves
the draw colour as it found it: none of its calls sets the draw colour, every call is
made under the draw colour from before, and its first call hands the command's own
decoded colour to the text rasteriser. -/
theorem own_color_before_drawing {F : Type} (ops : FloatOps F) (env : Environment F)
    (font user_data : Option Nat) (rs : SDL_Renderer F) (halive : rs.killed = false) :
    (∀ x y w h color,
      first_draw_color rs (exec_command ops env font user_data rs (.draw_rect x y w h color))
        = some (decode_color color)) ∧
    (∀ x1 y1 x2 y2 color,
      first_draw_color rs
          (exec_command ops env font user_data rs (.draw_line x1 y1 x2 y2 color))
        = some (decode_color color)) ∧
    (∀ cx cy radius start_angle end_angle color,
      first_draw_color rs
          (exec_command ops env font user_data rs
            (.draw_arc cx cy radius start_angle end_angle color))
        = if env.malloc ((32 + 1) * sizeof_SDL_FPoint) then some (decode_color color)
          else none) ∧
    (∀ vertices n color, 3 ≤ n → n < 65536 →
      env.malloc (n * sizeof_SDL_Vertex) = true →
      env.malloc ((n - 2) * 3 * sizeof_int) = true →
      first_draw_color rs
          (exec_command ops env font user_data rs (.draw_polygon vertices n color true))
        = some { r := 255, g := 255, b := 255, a := 255 } ∧
      new_entries rs
          (exec_command ops env font user_data rs (.draw_polygon vertices n color true))
        = [set_color_entry { r := 255, g := 255, b := 255, a := 255 },
           { call := .RenderGeometry user_data (polygon_vertices ops env vertices n color) n
               (polygon_indices env n) ((n - 2) * 3),
             draw_color := { r := 255, g := 255, b := 255, a := 255 } }] ∧
      (polygon_vertices ops env vertices n color).length = n ∧
      ∀ j, j < n →
        ((polygon_vertices ops env vertices n color)[j]?).map (fun v => v.color)
          = some (modulation_color ops (decode_color color))) ∧
    (∀ f x y color text,
      (exec_command ops env (some f) user_data rs (.draw_text x y color text)).draw_color
        = rs.draw_color ∧
      (∀ e ∈ new_entries rs
          (exec_command ops env (some f) user_data rs (.draw_text x y color text)),
        e.draw_color = rs.draw_color ∧ e.call.sets_color = false) ∧
      (new_entries rs
          (exec_command ops env (some f) user_data rs (.draw_text x y color text))).head?
        = some
          { call := .TTF_RenderText_Blended f text text.utf8ByteSize (decode_color color),
            draw_color := rs.draw_color } ∧
      ∀ c,
        first_draw_color rs
            (exec_command ops env (some f) user_data rs (.draw_text x y color text))
          = some c →
        c = rs.draw_color) := by
  refine ⟨?_, ?_, ?_, ?_, ?_⟩
  · intro x y w h color
    rw [exec_rect ops env font user_data rs x y w h color halive]
    simp [first_draw_color, first_drawing, new_entries, set_color_entry, SDLCall.is_drawing]
  · intro x1 y1 x2 y2 color
    rw [exec_line ops env font user_data rs x1 y1 x2 y2 color halive]
    simp [first_draw_color, first_drawing, new_entries, set_color_entry, SDLCall.is_drawing]
  · intro cx cy radius start_angle end_angle color
    rw [exec_draw_arc ops env font user_data rs cx cy radius start_angle end_angle color
      halive]
    cases env.malloc ((32 + 1) * sizeof_SDL_FPoint) <;>
      simp [first_draw_color, first_drawing, new_entries, set_color_entry,
        SDLCall.is_drawing]
  · intro vertices n color hn3 hn hv hi
    rw [exec_polygon ops env font user_data rs vertices n color halive hn3 hv hi]
    refine ⟨?_, ?_, (polygon_vertices_spec ops env vertices n color hn).1, ?_⟩
    · simp [first_draw_color, first_drawing, new_entries, set_color_entry,
        SDLCall.is_drawing]
    · simp [new_entries]
    · intro j hj
      rw [polygon_vertices_full ops env vertices n color hn j hj]
      rfl
  · intro f x y color text
    rw [exec_text_cmd ops env f user_data rs x y color text halive]
    obtain ⟨rest, hlog, hrest⟩ := exec_text_log ops env f rs x y color text
    have hnew : new_entries rs (exec_text ops env f rs x y color text)
        = (SDLCall.TTF_RenderText_Blended f text text.utf8ByteSize (decode_color color)
            :: rest).map (fun c => { call := c, draw_color := rs.draw_color }) := by
      rw [hlog]; simp [new_entries]
    have hall : ∀ e ∈ new_entries rs (exec_text ops env f rs x y color text),
        e.draw_color = rs.draw_color ∧ e.call.sets_color = false := by
      intro e he
      rw [hnew, List.mem_map] at he
      obtain ⟨c, hc, rfl⟩ := he
      refine ⟨rfl, ?_⟩
      rcases List.mem_cons.mp hc with h | h
      · rw [h]; rfl
      · exact hrest c h
    refine ⟨by rw [hlog], hall, by rw [hnew]; rfl, ?_⟩
    intro c hc
    simp only [first_draw_color, first_drawing, Option.map_eq_some'] at hc
    obtain ⟨e, he, rfl⟩ := hc
    exact (hall e (List.mem_of_find?_eq_some he)).1

/-- Claim C9, amended, on samples: a triangle is drawn in white, and a text command
leaves the draw colour of the sample renderer in place. -/
theorem own_color_before_drawing_witness :
    sample_renderer.killed = false ∧ 3 ≤ 3 ∧ 3 < 65536 ∧
    first_draw_color sample_renderer
        (exec_command sample_ops sample_env (some 7) none sample_renderer
          (.draw_polygon (fun _ => 0) 3 0xFF0000FF true))
      = some { r := 255, g := 255, b := 255, a := 255 } ∧
    first_draw_color sample_renderer
        (exec_command sample_ops sample_env (some 7) none sample_renderer
          (.draw_text 0 0 0xFF0000FF "hi"))
      = some { r := 0, g := 0, b := 0, a := 0 } ∧
    ({ r := 0, g := 0, b := 0, a := 0 } : SDL_Color) = sample_renderer.draw_color :=
  ⟨rfl, by decide, by decide,
    ((own_color_before_drawing sample_ops sample_env (some 7) none sample_renderer
      rfl).2.2.2.1 (fun _ => 0) 3 0xFF0000FF (by decide) (by decide) rfl rfl).1,
    rfl,
    ((own_color_before_drawing sample_ops sample_env (some 7) none sample_renderer
      rfl).2.2.2.2 7 0 0 0xFF0000FF "hi").2.2.2 _ rfl⟩

/-! ## Draw pass of the component renderer -/

theorem run_eq_record_command {F : Type} (s : CanvasState F) (c : FrontendCall F) :
    ∃ what, c.run s = record_command s c.command what := by
  cases c with
  | draw_circle cx cy radius color filled => exact ⟨"circle", rfl⟩
  | draw_ellipse cx cy rx ry color filled => exact ⟨"ellipse", rfl⟩
  | draw_arc cx cy radius start_angle end_angle color => exact ⟨"arc", rfl⟩
  | host_draw cmd => exact ⟨"draw", rfl⟩

theorem run_calls_appends {F : Type} (p : Nat) :
    ∀ (calls : List (FrontendCall F)) (s : CanvasState F),
      kryon_canvas_get_command_buffer s = some p → pushes_succeed s calls = true →
      kryon_canvas_get_command_buffer (run_calls calls s) = some p ∧
      ((run_calls calls s).mem p).commands
        = (s.mem p).commands ++ calls.map FrontendCall.command := by
  intro calls
  induction calls with
  | nil =>
    intro s hb _
    exact ⟨hb, by simp [run_calls]⟩
  | cons c cs ih =>
    intro s hb hs
    simp only [pushes_succeed, Bool.and_eq_true] at hs
    obtain ⟨h1, h2⟩ := hs
    have hp : (kryon_cmd_buf_push s.alloc_ok (s.mem p) c.command).1 = true := by
      simpa [push_succeeds, hb] using h1
    obtain ⟨what, hrun⟩ := run_eq_record_command s c
    have hpl := record_command_bound s p c.command what hb hp
    rw [← hrun] at hpl
    obtain ⟨hmem, _, _, _, _, _, hcur, _⟩ := hpl
    have hb1 : kryon_canvas_get_command_buffer (c.run s) = some p := by
      unfold kryon_canvas_get_command_buffer at hb ⊢
      rw [hcur]; exact hb
    obtain ⟨r1, r2⟩ := ih (c.run s) hb1 h2
    have hfold : run_calls (c :: cs) s = run_calls cs (c.run s) := rfl
    rw [hfold]
    refine ⟨r1, ?_⟩
    rw [r2, hmem]
    simp

theorem pass_shape {F : Type} (ops : FloatOps F) (env : Environment F) (st : RenderState F)
    (component : IRComponent) (x y width height : F) :
    ∃ c2 : CanvasState F,
      (c2.mem canvas_buffer
        = if st.buffer_initialized then kryon_cmd_buf_clear (st.canvas.mem canvas_buffer)
          else kryon_cmd_buf_init (st.canvas.mem canvas_buffer)) ∧
      (c2.mem canvas_buffer).commands = [] ∧
      kryon_canvas_get_command_buffer c2 = some canvas_buffer ∧
      ∀ dispatch : Nat → Nat → CanvasState F → CanvasState F,
        canvas_component_renderer_sdl3 ops env dispatch st component x y width height
          = match kryon_canvas_get_command_buffer (dispatch component.type component.id c2) with
            | none =>
              { canvas := dispatch component.type component.id c2, buffer_initialized := true,
                ctx := st.ctx }
            | some canvas_buf =>
              { canvas := dispatch component.type component.id c2, buffer_initialized := true,
                ctx :=
                  { st.ctx with
                    renderer :=
                      (drain_pass ops env st.ctx
                        ((dispatch component.type component.id c2).mem canvas_buf)) } } := by
  refine ⟨kryon_canvas_configure
    (kryon_canvas_set_command_buffer
      (if st.buffer_initialized then
        { st.canvas with
          mem := fun a =>
            if a = canvas_buffer then kryon_cmd_buf_clear (st.canvas.mem a)
            else st.canvas.mem a }
      else
        fprintf_stderr
          { st.canvas with
            mem := fun a =>
              if a = canvas_buffer then kryon_cmd_buf_init (st.canvas.mem a)
              else st.canvas.mem a }
          "[canvas_plugin] Initialized canvas command buffer\n")
      canvas_buffer)
    (ops.toU16 width) (ops.toU16 height) x y, ?_, ?_, rfl, fun _ => rfl⟩
  · cases st.buffer_initialized <;>
      simp [kryon_canvas_set_command_buffer, kryon_canvas_configure, fprintf_stderr]
  · cases st.buffer_initialized <;>
      simp [kryon_canvas_set_command_buffer, kryon_canvas_configure, fprintf_stderr,
        kryon_cmd_buf_init, kryon_cmd_buf_clear]

theorem pass_result_canvas {F : Type} (ops : FloatOps F) (env : Environment F)
    (ctx : IRPluginBackendContext F) (c3 : CanvasState F) :
    (match kryon_canvas_get_command_buffer c3 with
      | none => ({ canvas := c3, buffer_initialized := true, ctx := ctx } : RenderState F)
      | some canvas_buf =>
        { canvas := c3, buffer_initialized := true,
          ctx := { ctx with renderer := drain_pass ops env ctx (c3.mem canvas_buf) } }).canvas
      = c3 ∧
    (match kryon_canvas_get_command_buffer c3 with
      | none => ({ canvas := c3, buffer_initialized := true, ctx := ctx } : RenderState F)
      | some canvas_buf =>
        { canvas := c3, buffer_initialized := true,
          ctx := { ctx with renderer := drain_pass ops env ctx (c3.mem canvas_buf) }
            }).buffer_initialized = true := by
  cases kryon_canvas_get_command_buffer c3 <;> exact ⟨rfl, rfl⟩

theorem callback_entry_spec {F : Type} (ops : FloatOps F) (env : Environment F)
    (st : RenderState F) (component : IRComponent) (x y width height : F) :
    ((callback_entry ops env st component x y width height).mem canvas_buffer
      = if st.buffer_initialized then kryon_cmd_buf_clear (st.canvas.mem canvas_buffer)
        else kryon_cmd_buf_init (st.canvas.mem canvas_buffer)) ∧
    ((callback_entry ops env st component x y width height).mem canvas_buffer).commands = [] ∧
    kryon_canvas_get_command_buffer (callback_entry ops env st component x y width height)
      = some canvas_buffer ∧
    ∀ dispatch : Nat → Nat → CanvasState F → CanvasState F,
      canvas_component_renderer_sdl3 ops env dispatch st component x y width height
        = match kryon_canvas_get_command_buffer
              (dispatch component.type component.id
                (callback_entry ops env st component x y width height)) with
          | none =>
            { canvas := dispatch component.type component.id
                (callback_entry ops env st component x y width height),
              buffer_initialized := true, ctx := st.ctx }
          | some canvas_buf =>
            { canvas := dispatch component.type component.id
                (callback_entry ops env st component x y width height),
              buffer_initialized := true,
              ctx :=
                { st.ctx with
                  renderer :=
                    (drain_pass ops env st.ctx
                      ((dispatch component.type component.id
                        (callback_entry ops env st component x y width height)).mem
                          canvas_buf)) } } := by
  obtain ⟨c2, h0, h1, h2, h3⟩ := pass_shape ops env st component x y width height
  have he : callback_entry ops env st component x y width height = c2 := by
    unfold callback_entry
    rw [h3]
    exact (pass_result_canvas ops env st.ctx c2).1
  rw [he]
  exact ⟨h0, h1, h2, h3⟩

/-- Claim C11. In every draw pass, whatever the render state `st` it starts from (first
pass or later pass, whatever an earlier pass left in the static buffer): at the moment
the user callback is invoked the static command buffer is the initialised one on the
first pass and the cleared one on a later pass, it is empty, and it is the bound
buffer; the callback is handed exactly that state and the pass marks the buffer as set
up. Hence, when the callback makes `N` frontend calls whose pushes succeed, draining
the buffer yields exactly their `N` commands in push order, and the renderer after the
pass is the renderer before it with exactly those commands executed in that order, so
nothing pushed in an earlier pass is executed again. -/
theorem draw_pass_fresh_buffer {F : Type} (ops : FloatOps F) (env : Environment F)
    (st : RenderState F) (component : IRComponent) (x y width height : F) :
    ((callback_entry ops env st component x y width height).mem canvas_buffer
      = if st.buffer_initialized then kryon_cmd_buf_clear (st.canvas.mem canvas_buffer)
        else kryon_cmd_buf_init (st.canvas.mem canvas_buffer)) ∧
    ((callback_entry ops env st component x y width height).mem canvas_buffer).commands = [] ∧
    kryon_canvas_get_command_buffer (callback_entry ops env st component x y width height)
      = some canvas_buffer ∧
    (∀ dispatch : Nat → Nat → CanvasState F → CanvasState F,
      (canvas_component_renderer_sdl3 ops env dispatch st component x y width height).canvas
        = dispatch component.type component.id
            (callback_entry ops env st component x y width height) ∧
      (canvas_component_renderer_sdl3 ops env dispatch st component x y width
        height).buffer_initialized = true) ∧
    (∀ calls : List (FrontendCall F),
      pushes_succeed (callback_entry ops env st component x y width height) calls = true →
      drain
          ((canvas_component_renderer_sdl3 ops env (fun _ _ s => run_calls calls s) st component
            x y width height).canvas.mem canvas_buffer)
        = calls.map FrontendCall.command ∧
      (drain
          ((canvas_component_renderer_sdl3 ops env (fun _ _ s => run_calls calls s) st component
            x y width height).canvas.mem canvas_buffer)).length = calls.length ∧
      (canvas_component_renderer_sdl3 ops env (fun _ _ s => run_calls calls s) st component
          x y width height).ctx.renderer
        = (calls.map FrontendCall.command).foldl
            (exec_command ops env st.ctx.font st.ctx.user_data) st.ctx.renderer) := by
  obtain ⟨h0, h1, h2, h3⟩ := callback_entry_spec ops env st component x y width height
  refine ⟨h0, h1, h2, ?_, ?_⟩
  · intro dispatch
    rw [h3 dispatch]
    exact pass_result_canvas ops env st.ctx _
  · intro calls hs
    obtain ⟨r1, r2⟩ := run_calls_appends canvas_buffer calls _ h2 hs
    rw [h1, List.nil_append] at r2
    rw [h3 (fun _ _ s => run_calls calls s)]
    simp only [r1]
    refine ⟨?_, ?_, ?_⟩
    · rw [drain_eq_commands, r2]
    · rw [drain_eq_commands, r2, List.length_map]
    · rw [drain_pass_eq_foldl, r2]

/-- Claim C11 on a sample: a later pass that starts with a rectangle of the earlier
pass still in the buffer and whose callback draws a rectangle and a circle. Draining
yields those two commands and the backend log holds the new rectangle only. -/
theorem draw_pass_fresh_buffer_witness :
    pushes_succeed (callback_entry sample_ops sample_env stale_pass sample_component 0 0 64 64)
      sample_calls = true ∧
    drain
        ((canvas_component_renderer_sdl3 sample_ops sample_env
          (fun _ _ s => run_calls sample_calls s) stale_pass sample_component 0 0 64
          64).canvas.mem canvas_buffer)
      = [.draw_rect 10 10 50 20 0xFF0000FF, .canvas_circle 5 6 7 0xFF0000FF true] ∧
    (canvas_component_renderer_sdl3 sample_ops sample_env
        (fun _ _ s => run_calls sample_calls s) stale_pass sample_component 0 0 64
        64).ctx.renderer.log
      = [{ call := .SetRenderDrawColor 255 0 0 255,
           draw_color := { r := 255, g := 0, b := 0, a := 255 } },
         { call := .RenderFillRect { x := 10, y := 10, w := 50, h := 20 },
           draw_color := { r := 255, g := 0, b := 0, a := 255 } }] :=
  ⟨rfl,
    ((draw_pass_fresh_buffer sample_ops sample_env stale_pass sample_component 0 0 64
      64).2.2.2.2 sample_calls rfl).1,
    by
      rw [((draw_pass_fresh_buffer sample_ops sample_env stale_pass sample_component 0 0 64
        64).2.2.2.2 sample_calls rfl).2.2]
      rfl⟩

end KryonCanvas
